import Mathlib

/-!
# Port-forwarding relay (`src/tunnel.c`): shallow embedding and properties

The C code talks to the outside world only through system and libssh calls.
Each such call is answered by an environment `Env`: one stream of answers per
kind of call, indexed by how many calls of that kind were made so far.  The
program is a state transformer over `State` (the C statics and locals plus a
chronological trace of the calls made), and an R error (`Rf_errorcall`, a
long jump out of the C code) is the result `Res.raised`.

Loops that the C code runs without a bound take a fuel argument; running out
of fuel is the result `Res.timeout`.
-/

namespace Tunnel

/-- One byte of payload. -/
abbrev Byte := Fin 256

/-- Size of `char buf[16384]` in `host_tunnel`. -/
def BUFSIZE : Nat := 16384

/-- Linux value of `EAGAIN`. -/
def EAGAIN : Int := 11

/-- Linux value of `EWOULDBLOCK`. -/
def EWOULDBLOCK : Int := 11

/-- Linux value of `ECONNRESET`, a typical hard failure of `recv`. -/
def ECONNRESET : Int := 104

/-- Answer of a system call that returns an `int`: the value returned and the
value the call stores in `errno`, if it stores one. -/
structure Resp where
  ret : Int
  errno : Option Int
deriving DecidableEq, Repr

/-- Answer of a call that reads into `buf`: either data (the call returns the
number of bytes, at most the size of the buffer) or a result `-n ≤ 0`
(`0`: nothing / end of file, `-1`: failure) with the `errno` it stores. -/
inductive ReadResult where
  | got (d : List Byte)
  | neg (n : Nat) (errno : Option Int)
deriving DecidableEq, Repr

/-- The calls the code makes, in the order it makes them, with their
arguments and results. -/
inductive Event where
  | rprintf_waiting (c : Char) (port : Int)
  | rprintf_progress (c : Char) (total : Int)
  | rprintf_msg (msg : String)
  | reprintf (bytes : List Byte)
  | socket (ret : Int)
  | bind (fd : Int) (ret : Int)
  | listen (fd : Int) (ret : Int)
  | select (fd : Int) (ret : Int)
  | pending_interrupt (r : Bool)
  | accept (fd : Int) (ret : Int)
  | set_nonblocking (fd : Int)
  | ssh_channel_new (ret : Nat)
  | ssh_channel_open_forward (tunnel : Nat) (rc : Int)
  | ssh_channel_is_open (tunnel : Nat) (r : Bool)
  | ssh_channel_is_eof (tunnel : Nat) (r : Bool)
  | ssh_select (tunnel : Nat) (fd : Int)
  | recv (fd : Int) (r : ReadResult)
  | ssh_channel_write (tunnel : Nat) (offered : List Byte) (ret : Int)
  | ssh_channel_read_nonblocking (tunnel : Nat) (is_stderr : Bool) (r : ReadResult)
  | send (fd : Int) (offered : List Byte) (ret : Int) (errno : Int)
  | close (fd : Int)
  | ssh_channel_send_eof (tunnel : Nat)
  | ssh_channel_close (tunnel : Nat)
  | ssh_channel_free (tunnel : Nat)
deriving DecidableEq, Repr

/-- Answers of the outside world, one stream per kind of call. -/
structure Env where
  socket : Resp
  bind : Resp
  listen : Resp
  select : Nat → Resp
  pending_interrupt : Nat → Bool
  accept : Resp
  ssh_channel_new : Nat
  ssh_channel_open_forward : Int
  ssh_channel_is_open : Nat → Bool
  ssh_channel_is_eof : Nat → Bool
  recv : Nat → ReadResult
  ssh_channel_write : Nat → Int
  read_stdout : Nat → ReadResult
  read_stderr : Nat → ReadResult
  send : Nat → Resp

/-- Program state: `errno`, the statics `x` (of `spinner`) and `total` (of
`print_progress`), the buffer `buf` of `host_tunnel`, the number of calls made
so far of each kind that the environment answers by a stream, and the trace. -/
structure State where
  errno : Int
  x : Nat
  total : Int
  buf : List Byte
  nSelect : Nat
  nInterrupt : Nat
  nIsOpen : Nat
  nIsEof : Nat
  nRecv : Nat
  nWrite : Nat
  nStdout : Nat
  nStderr : Nat
  nSend : Nat
  trace : List Event
deriving DecidableEq, Repr

/-- State of a fresh process: statics are zero, nothing was called. -/
def State.init : State :=
  { errno := 0, x := 0, total := 0, buf := [],
    nSelect := 0, nInterrupt := 0, nIsOpen := 0, nIsEof := 0, nRecv := 0,
    nWrite := 0, nStdout := 0, nStderr := 0, nSend := 0, trace := [] }

/-- Result of running a piece of the program. -/
inductive Res (α : Type) where
  | ok (a : α) (s : State)
  | raised (what : String) (s : State)
  | timeout (s : State)
deriving DecidableEq, Repr

/-- State at which a run ended. -/
def Res.state {α : Type} : Res α → State
  | .ok _ s => s
  | .raised _ s => s
  | .timeout s => s

/-- Programs: state transformers that may raise or run out of fuel. -/
abbrev M (α : Type) := State → Res α

/-- Sequencing: a raised error or a timeout skips the rest. -/
def M.bind {α β : Type} (m : M α) (f : α → M β) : M β := fun s =>
  match m s with
  | .ok a s1 => f a s1
  | .raised w s1 => .raised w s1
  | .timeout s1 => .timeout s1

instance : Monad M where
  pure a := fun s => .ok a s
  bind := M.bind

/-- Append an event to the trace. -/
def emit (e : Event) : M Unit := fun s =>
  .ok () { s with trace := s.trace ++ [e] }

/-- A call stores a value in `errno`, or leaves it alone. -/
def setErrno (e : Option Int) : M Unit := fun s =>
  .ok () { s with errno := e.getD s.errno }

/-- Two's-complement wrap of an `int`. -/
def wrap32 (v : Int) : Int := (v + 2 ^ 31) % 2 ^ 32 - 2 ^ 31

/-- The test that `NONBLOCK_OK` makes on `errno` (POSIX branch). -/
def isWouldBlock (e : Int) : Bool :=
  e == EAGAIN || e == EWOULDBLOCK

/-- The macro `NONBLOCK_OK`. -/
def NONBLOCK_OK (s : State) : Bool :=
  isWouldBlock s.errno

/-- The function `pending_interrupt`. -/
def pending_interrupt (env : Env) : M Bool := fun s =>
  let r := env.pending_interrupt s.nInterrupt
  .ok r { s with nInterrupt := s.nInterrupt + 1,
                 trace := s.trace ++ [.pending_interrupt r] }

/-- The function `syserror_if`: `Rf_errorcall` does not return. -/
def syserror_if (err : Bool) (what : String) : M Unit := fun s =>
  if err && !NONBLOCK_OK s then .raised what s else .ok () s

/-- Modelled from the spec: `bail_if` is declared in `myssh.h`, which is not
among the sources.  The spec has a failure to open the channel propagate as a
fatal error naming the operation, so a nonzero condition raises. -/
def bail_if (rc : Bool) (what : String) : M Unit := fun s =>
  if rc then .raised what s else .ok () s

/-- The `switch` of `spinner`. -/
def spinnerChar (x : Nat) : Char :=
  match x with
  | 0 => '|'
  | 1 => '/'
  | 2 => '-'
  | 3 => Char.ofNat 92
  | _ => '?'

/-- The function `spinner`. -/
def spinner : M Char := fun s =>
  let x := (s.x + 1) % 4
  .ok (spinnerChar x) { s with x := x }

/-- The function `print_progress`: the reset `if(add < 0) total = 0;`, then the
arguments of `Rprintf`, `spinner()` and `total += add`. -/
def print_progress (add : Int) : M Unit := fun s =>
  let s := { s with total := if add < 0 then 0 else s.total }
  match spinner s with
  | .ok c s =>
    let total := wrap32 (s.total + add)
    .ok () { s with total := total, trace := s.trace ++ [.rprintf_progress c total] }
  | .raised w s => .raised w s
  | .timeout s => .timeout s

/-- The call `select(fd+1, &rfds, NULL, NULL, &tv)` of `wait_for_fd`. -/
def select (env : Env) (fd : Int) : M Int := fun s =>
  let r := env.select s.nSelect
  .ok r.ret { s with nSelect := s.nSelect + 1, errno := r.errno.getD s.errno,
                     trace := s.trace ++ [.select fd r.ret] }

/-- The function `wait_for_fd`; `active` is zero on entry to every iteration. -/
def wait_for_fd (env : Env) (fd : Int) (port : Int) : Nat → M Int
  | 0 => fun s => .timeout s
  | fuel + 1 => do
    let c ← spinner
    emit (.rprintf_waiting c port)
    let active ← select env fd
    syserror_if (active < 0) "select()"
    if active != 0 then
      pure active
    else
      let intr ← pending_interrupt env
      if intr then pure active else wait_for_fd env fd port fuel

/-- The function `open_port`. -/
def open_port (env : Env) (_port : Int) : M Int := do
  let listenfd := env.socket.ret
  setErrno env.socket.errno
  emit (.socket listenfd)
  syserror_if (listenfd < 0) "socket()"
  setErrno env.bind.errno
  emit (.bind listenfd env.bind.ret)
  syserror_if (env.bind.ret < 0) "bind()"
  setErrno env.listen.errno
  emit (.listen listenfd env.listen.ret)
  syserror_if (env.listen.ret < 0) "listen()"
  pure listenfd

/-- The value a read returns to the C code: the number of bytes stored, at
most `sizeof(buf)`, or the non-positive result. -/
def ReadResult.ret : ReadResult → Int
  | .got d => ((d.take BUFSIZE).length : Int)
  | .neg n _ => -(n : Int)

/-- What a read does to the state: data overwrites the front of `buf`, a
failure stores its `errno`. -/
def ReadResult.store (r : ReadResult) (s : State) : State :=
  match r with
  | .got d => { s with buf := d.take BUFSIZE ++ s.buf.drop (d.take BUFSIZE).length }
  | .neg _ e => { s with errno := e.getD s.errno }

/-- A read of `sizeof(buf)` bytes into `buf`. -/
def readInto (r : ReadResult) : M Int := fun s =>
  .ok r.ret (r.store s)

/-- The call `recv(connfd, buf, sizeof(buf), 0)`. -/
def recv (env : Env) (connfd : Int) : M Int := fun s =>
  let r := env.recv s.nRecv
  readInto r { s with nRecv := s.nRecv + 1, trace := s.trace ++ [.recv connfd r] }

/-- The call `ssh_channel_read_nonblocking(tunnel, buf, sizeof(buf), is_stderr)`. -/
def ssh_channel_read_nonblocking (env : Env) (tunnel : Nat) (is_stderr : Bool) : M Int :=
  fun s =>
  if is_stderr then
    let r := env.read_stderr s.nStderr
    readInto r { s with nStderr := s.nStderr + 1,
                        trace := s.trace ++ [.ssh_channel_read_nonblocking tunnel true r] }
  else
    let r := env.read_stdout s.nStdout
    readInto r { s with nStdout := s.nStdout + 1,
                        trace := s.trace ++ [.ssh_channel_read_nonblocking tunnel false r] }

/-- The call `ssh_channel_write(tunnel, buf, avail)`; the trace keeps the
bytes offered and the value returned. -/
def ssh_channel_write (env : Env) (tunnel : Nat) (avail : Int) : M Int := fun s =>
  let r := env.ssh_channel_write s.nWrite
  .ok r { s with nWrite := s.nWrite + 1,
                 trace := s.trace ++ [.ssh_channel_write tunnel (s.buf.take avail.toNat) r] }

/-- The call `send(connfd, buf, avail, 0)`; the trace keeps the bytes offered,
the value returned and the value of `errno` after the call. -/
def send (env : Env) (connfd : Int) (avail : Int) : M Int := fun s =>
  let r := env.send s.nSend
  .ok r.ret { s with nSend := s.nSend + 1, errno := r.errno.getD s.errno,
                     trace := s.trace ++
                       [.send connfd (s.buf.take avail.toNat) r.ret (r.errno.getD s.errno)] }

/-- The output of `REprintf("%.*s", avail, buf)`: at most `avail` bytes, up to
the first NUL. -/
def reprintf (avail : Int) : M Unit := fun s =>
  .ok () { s with trace := s.trace ++
    [.reprintf ((s.buf.take avail.toNat).takeWhile (fun b => b != 0))] }

/-- The loop "Pipe local socket data to ssh channel"; returns the last value
of `avail`. -/
def pipe_local (env : Env) (tunnel : Nat) (connfd : Int) : Nat → M Int
  | 0 => fun s => .timeout s
  | fuel + 1 => do
    let avail ← recv env connfd
    if avail > 0 then
      let _ ← ssh_channel_write env tunnel avail
      print_progress avail
      pipe_local env tunnel connfd fuel
    else
      pure avail

/-- The loop "Pipe ssh stdout data to local socket"; returns the last value
of `avail`. -/
def pipe_stdout (env : Env) (tunnel : Nat) (connfd : Int) : Nat → M Int
  | 0 => fun s => .timeout s
  | fuel + 1 => do
    let avail ← ssh_channel_read_nonblocking env tunnel false
    if avail > 0 then
      let sent ← send env connfd avail
      syserror_if (sent < avail) "send() to user"
      print_progress avail
      pipe_stdout env tunnel connfd fuel
    else
      pure avail

/-- The loop "Print ssh stderr data to console"; returns the last value of
`avail`. -/
def pipe_stderr (env : Env) (tunnel : Nat) : Nat → M Int
  | 0 => fun s => .timeout s
  | fuel + 1 => do
    let avail ← ssh_channel_read_nonblocking env tunnel true
    if avail > 0 then
      reprintf avail
      pipe_stderr env tunnel fuel
    else
      pure avail

/-- The call `ssh_channel_is_open(tunnel)`. -/
def ssh_channel_is_open (env : Env) (tunnel : Nat) : M Bool := fun s =>
  let r := env.ssh_channel_is_open s.nIsOpen
  .ok r { s with nIsOpen := s.nIsOpen + 1,
                 trace := s.trace ++ [.ssh_channel_is_open tunnel r] }

/-- The call `ssh_channel_is_eof(tunnel)`. -/
def ssh_channel_is_eof (env : Env) (tunnel : Nat) : M Bool := fun s =>
  let r := env.ssh_channel_is_eof s.nIsEof
  .ok r { s with nIsEof := s.nIsEof + 1,
                 trace := s.trace ++ [.ssh_channel_is_eof tunnel r] }

/-- The condition of the relay loop,
`!pending_interrupt() && ssh_channel_is_open(tunnel) && !ssh_channel_is_eof(tunnel)`,
with the short-circuit of `&&`. -/
def loop_cond (env : Env) (tunnel : Nat) : M Bool := do
  let intr ← pending_interrupt env
  if intr then
    pure false
  else
    let isOpen ← ssh_channel_is_open env tunnel
    if !isOpen then
      pure false
    else
      let isEof ← ssh_channel_is_eof env tunnel
      pure (!isEof)

/-- Lines 119-124 of `host_tunnel`: pipe local socket data to the channel,
then `syserror_if(avail == -1, "recv() from user")`; returns `avail`. -/
def drain_local (env : Env) (tunnel : Nat) (connfd : Int) (fuel : Nat) : M Int := do
  let avail ← pipe_local env tunnel connfd fuel
  syserror_if (avail == -1) "recv() from user"
  pure avail

/-- Lines 128-133 of `host_tunnel`: pipe ssh stdout data to the local socket,
then `syserror_if(avail == -1, "ssh_channel_read_nonblocking()")`. -/
def drain_stdout (env : Env) (tunnel : Nat) (connfd : Int) (fuel : Nat) : M Unit := do
  let avail ← pipe_stdout env tunnel connfd fuel
  syserror_if (avail == -1) "ssh_channel_read_nonblocking()"

/-- Lines 135-138 of `host_tunnel`: print ssh stderr data to the console,
then `syserror_if(avail == -1, "ssh_channel_read_nonblocking()")`. -/
def drain_stderr (env : Env) (tunnel : Nat) (fuel : Nat) : M Unit := do
  let avail ← pipe_stderr env tunnel fuel
  syserror_if (avail == -1) "ssh_channel_read_nonblocking()"

/-- What the body of the relay loop does after a `recv` loop that did not end
on a zero-length read. -/
def after_local (env : Env) (tunnel : Nat) (connfd : Int) (fuel : Nat) : M Bool := do
  drain_stdout env tunnel connfd fuel
  drain_stderr env tunnel fuel
  print_progress 0
  pure true

/-- The body of the relay loop; `true` means go round again, `false` is the
`break` after a zero-length `recv`. -/
def loop_body (env : Env) (tunnel : Nat) (connfd : Int) (fuel : Nat) : M Bool := do
  emit (.ssh_select tunnel connfd)
  let avail ← drain_local env tunnel connfd fuel
  if avail == 0 then
    pure false
  else
    after_local env tunnel connfd fuel

/-- The relay loop of `host_tunnel`. -/
def relay (env : Env) (tunnel : Nat) (connfd : Int) : Nat → M Unit
  | 0 => fun s => .timeout s
  | fuel + 1 => do
    let go ← loop_cond env tunnel
    if go then
      let again ← loop_body env tunnel connfd fuel
      if again then relay env tunnel connfd fuel else pure ()
    else
      pure ()

/-- The four calls after the relay loop. -/
def cleanup (tunnel : Nat) (connfd : Int) : M Unit := do
  emit (.close connfd)
  emit (.ssh_channel_send_eof tunnel)
  emit (.ssh_channel_close tunnel)
  emit (.ssh_channel_free tunnel)

/-- The function `host_tunnel`. -/
def host_tunnel (env : Env) (tunnel : Nat) (connfd : Int) (fuel : Nat) : M Unit := do
  print_progress (-1)
  relay env tunnel connfd fuel
  cleanup tunnel connfd

/-- The function `open_tunnel`. -/
def open_tunnel (env : Env) (port : Int) (fuel : Nat) : M Unit := do
  let listenfd ← open_port env port
  let ready ← wait_for_fd env listenfd port fuel
  if ready == 0 then
    pure ()
  else
    let connfd := env.accept.ret
    setErrno env.accept.errno
    emit (.accept listenfd connfd)
    syserror_if (connfd < 0) "accept()"
    emit (.rprintf_msg "client connnected!\n")
    emit (.set_nonblocking connfd)
    let tunnel := env.ssh_channel_new
    emit (.ssh_channel_new tunnel)
    bail_if (tunnel == 0) "ssh_channel_new"
    let rc := env.ssh_channel_open_forward
    emit (.ssh_channel_open_forward tunnel rc)
    bail_if (rc != 0) "channel_open_forward"
    host_tunnel env tunnel connfd fuel
    emit (.rprintf_msg "tunnel closed!\n")
    emit (.close listenfd)

/-! ## Observations on runs -/

/-- Events that are a read of one of the channel's substreams or a `send` to
the local connection. -/
def Event.isChannelReadOrSend : Event → Bool
  | .ssh_channel_read_nonblocking _ _ _ => true
  | .send _ _ _ _ => true
  | _ => false

/-- The bytes a read stored in `buf`. -/
def ReadResult.data : ReadResult → List Byte
  | .got d => d.take BUFSIZE
  | .neg _ _ => []

/-- The bytes an event reads from the local connection. -/
def Event.fromLocal : Event → List Byte
  | .recv _ r => r.data
  | _ => []

/-- The bytes an event reads from the channel's primary (stdout) substream. -/
def Event.fromPrimary : Event → List Byte
  | .ssh_channel_read_nonblocking _ false r => r.data
  | _ => []

/-- The bytes the channel's write stream accepts in an event: of the bytes
offered to `ssh_channel_write`, as many as its return value says. -/
def Event.toChannel : Event → List Byte
  | .ssh_channel_write _ offered ret => offered.take ret.toNat
  | _ => []

/-- The bytes the local connection accepts in an event: of the bytes offered
to `send`, as many as its return value says. -/
def Event.toLocal : Event → List Byte
  | .send _ offered ret _ => offered.take ret.toNat
  | _ => []

/-- The bytes read from the local connection, in order. -/
def fromLocal (tr : List Event) : List Byte := tr.flatMap Event.fromLocal

/-- The bytes read from the channel's primary (stdout) substream, in order. -/
def fromPrimary (tr : List Event) : List Byte := tr.flatMap Event.fromPrimary

/-- The bytes the channel's write stream accepted, in order. -/
def toChannel (tr : List Event) : List Byte := tr.flatMap Event.toChannel

/-- The bytes the local connection accepted, in order. -/
def toLocal (tr : List Event) : List Byte := tr.flatMap Event.toLocal

/-- A `send` that took fewer bytes than offered while `errno` was left at a
would-block value. -/
def Event.isWouldBlockShortSend : Event → Bool
  | .send _ offered ret errno => decide (ret < (offered.length : Int)) && isWouldBlock errno
  | _ => false

/-- The value of `errno` after a read, when it was `e0` before: data leaves it
alone, a result `-n` stores the value it carries. -/
def ReadResult.errnoAfter (r : ReadResult) (e0 : Int) : Int :=
  match r with
  | .got _ => e0
  | .neg _ e => e.getD e0

/-- The value of `errno` after `k` calls of `send`, the first of which is call
number `n`, when it was `e0` before. -/
def errnoAfterSends (env : Env) : Nat → Nat → Int → Int
  | _, 0, e0 => e0
  | n, k + 1, e0 => errnoAfterSends env (n + 1) k ((env.send n).errno.getD e0)

/-- The state after one round of the stdout loop that got data and went on:
the read, then `send`, then `print_progress`. -/
def afterOutChunk (env : Env) (tunnel : Nat) (connfd : Int) (s : State) : State :=
  ((ssh_channel_read_nonblocking env tunnel false >>= fun avail =>
    send env connfd avail >>= fun _ => print_progress avail) s).state

/-- The state after one round of the stderr loop that got data: the read, then
`REprintf`. -/
def afterErrChunk (env : Env) (tunnel : Nat) (s : State) : State :=
  ((ssh_channel_read_nonblocking env tunnel true >>= fun avail => reprintf avail) s).state

/-- The state after one round of the `recv` loop that got data: `recv`, then
`ssh_channel_write`, then `print_progress`. -/
def afterChunk (env : Env) (tunnel : Nat) (connfd : Int) (s : State) : State :=
  ((recv env connfd >>= fun avail =>
    ssh_channel_write env tunnel avail >>= fun _ => print_progress avail) s).state

/-! ## Relating two runs -/

/-- The environment with the answers of the auxiliary (stderr) substream
replaced. -/
def Env.withStderr (env : Env) (f : Nat → ReadResult) : Env :=
  { env with read_stderr := f }

/-- Two answers of a read that agree in everything but the content of the
data: the same number of bytes, or the same result and `errno`. -/
def sameShape : ReadResult → ReadResult → Bool
  | .got d1, .got d2 => d1.length == d2.length
  | .neg n1 e1, .neg n2 e2 => n1 == n2 && e1 == e2
  | _, _ => false

/-- An event with the content of auxiliary-substream data blanked: the bytes
a read of the stderr substream stored, and the bytes printed by `REprintf`. -/
def Event.eraseAux : Event → Event
  | .ssh_channel_read_nonblocking t true (.got d) =>
    .ssh_channel_read_nonblocking t true (.got (List.replicate d.length 0))
  | .reprintf _ => .reprintf []
  | e => e

/-- Events that pass bytes on: `send` to the local connection and
`ssh_channel_write` to the channel. -/
def Event.isForward : Event → Bool
  | .send _ _ _ _ => true
  | .ssh_channel_write _ _ _ => true
  | _ => false

/-- Two states that agree in everything but the content of `buf` and the
content of auxiliary-substream data in the trace. -/
structure Sim (s1 s2 : State) : Prop where
  errno : s1.errno = s2.errno
  x : s1.x = s2.x
  total : s1.total = s2.total
  nSelect : s1.nSelect = s2.nSelect
  nInterrupt : s1.nInterrupt = s2.nInterrupt
  nIsOpen : s1.nIsOpen = s2.nIsOpen
  nIsEof : s1.nIsEof = s2.nIsEof
  nRecv : s1.nRecv = s2.nRecv
  nWrite : s1.nWrite = s2.nWrite
  nStdout : s1.nStdout = s2.nStdout
  nStderr : s1.nStderr = s2.nStderr
  nSend : s1.nSend = s2.nSend
  trace : s1.trace.map Event.eraseAux = s2.trace.map Event.eraseAux

/-- Two states related by `Sim` whose buffers agree on the first `n` bytes. -/
def SimBuf (n : Int) (s1 s2 : State) : Prop :=
  Sim s1 s2 ∧ s1.buf.take n.toNat = s2.buf.take n.toNat

/-- Two results of the same kind: the same value with states related by `Q`,
or the same error or a timeout with states related by `Sim`. -/
def ResRel {α : Type} (Q : α → State → State → Prop) : Res α → Res α → Prop
  | .ok a s1, .ok b s2 => a = b ∧ Q a s1 s2
  | .raised w s1, .raised v s2 => w = v ∧ Sim s1 s2
  | .timeout s1, .timeout s2 => Sim s1 s2
  | _, _ => False

/-- Two programs that take states related by `P` to results related by `Q`. -/
def RTriple {α : Type} (P : State → State → Prop) (m1 m2 : M α)
    (Q : α → State → State → Prop) : Prop :=
  ∀ s1 s2, P s1 s2 → ResRel Q (m1 s1) (m2 s2)

/-! ## Delivery to the local connection -/

/-- Events that read the channel's primary substream or `send` to the local
connection. -/
def Event.isPrimaryOrSend : Event → Bool
  | .ssh_channel_read_nonblocking _ false _ => true
  | .send _ _ _ _ => true
  | _ => false

/-- No `send` in the trace came up short while `errno` was a would-block
value. -/
def noSilentShortSend (tr : List Event) : Prop :=
  ∀ e ∈ tr, e.isWouldBlockShortSend = false

/-- Unless a would-block short `send` occurred, the local connection got all
the bytes read from the primary substream. -/
def Delivered (s : State) : Prop :=
  noSilentShortSend s.trace → toLocal s.trace = fromPrimary s.trace

/-- Unless a would-block short `send` occurred, the local connection got a
prefix of the bytes read from the primary substream. -/
def DeliveredPrefix (s : State) : Prop :=
  noSilentShortSend s.trace → toLocal s.trace <+: fromPrimary s.trace

/-- After a read of the primary substream that returned `a`: the chunk read
is at the front of `buf` and is the only part not yet delivered. -/
def Pending (a : Int) (s : State) : Prop :=
  (0 < a → ((s.buf.take a.toNat).length : Int) = a) ∧
  (noSilentShortSend s.trace → fromPrimary s.trace = toLocal s.trace ++ s.buf.take a.toNat)

/-- A program that takes states with `P` to a value and state with `Q`, or
raises or runs out of fuel in a state with `E`. -/
def Triple {α : Type} (P : State → Prop) (m : M α) (Q : α → State → Prop)
    (E : State → Prop) : Prop :=
  ∀ s, P s → match m s with
    | .ok a s1 => Q a s1
    | .raised _ s1 => E s1
    | .timeout s1 => E s1

/-- A program that neither reads the primary substream nor sends to the local
connection: it only appends other events to the trace. -/
def Quiet {α : Type} (m : M α) : Prop :=
  ∀ s, ∃ l, (m s).state.trace = s.trace ++ l ∧ ∀ e ∈ l, e.isPrimaryOrSend = false

/-- After the `send` of a chunk of `a` bytes that returned `sent`, before the
check of `syserror_if`: a short count with a hard `errno` has left a prefix
delivered, anything else counts as delivered. -/
def AfterSend (a sent : Int) (s : State) : Prop :=
  (sent < a ∧ isWouldBlock s.errno = false → DeliveredPrefix s) ∧
  (¬ (sent < a ∧ isWouldBlock s.errno = false) → Delivered s)

/-! ## Scenario environments -/

/-- An environment in which nothing ever happens: every call succeeds with
nothing to report, no data arrives and nobody interrupts. -/
def Env.quiet : Env :=
  { socket := ⟨3, none⟩, bind := ⟨0, none⟩, listen := ⟨0, none⟩,
    select := fun _ => ⟨0, none⟩,
    pending_interrupt := fun _ => false,
    accept := ⟨4, none⟩, ssh_channel_new := 1, ssh_channel_open_forward := 0,
    ssh_channel_is_open := fun _ => true, ssh_channel_is_eof := fun _ => false,
    recv := fun _ => .neg 1 (some EAGAIN),
    ssh_channel_write := fun _ => 0,
    read_stdout := fun _ => .neg 0 none,
    read_stderr := fun _ => .neg 0 none,
    send := fun _ => ⟨0, none⟩ }

/-- The request of Scenario A, 18 bytes: `GET / HTTP/1.0\r\n\r\n`. -/
def requestA : List Byte :=
  [71, 69, 84, 32, 47, 32, 72, 84, 84, 80, 47, 49, 46, 48, 13, 10, 13, 10]

/-- Scenario A after the accept: the client sends the request in one chunk,
the channel takes all of it, then the client closes. -/
def envScenarioA : Env :=
  { Env.quiet with
    recv := fun i => if i = 0 then .got requestA else .neg 0 none,
    ssh_channel_write := fun _ => 18 }

/-- A busy link on which everything ends in a would-block failure: the local
peer sends two bytes, the channel delivers three bytes on its primary and one
on its auxiliary substream; every later read returns -1 with a would-block
`errno`, and every `send` fails with `EAGAIN`. -/
def envBusyWouldBlock : Env :=
  { Env.quiet with
    recv := fun i => if i = 0 then .got [1, 2] else .neg 1 (some EAGAIN),
    ssh_channel_write := fun _ => 2,
    read_stdout := fun i => if i = 0 then .got [7, 8, 9] else .neg 1 (some EAGAIN),
    read_stderr := fun i => if i = 0 then .got [69] else .neg 1 (some EWOULDBLOCK),
    send := fun _ => ⟨-1, some EAGAIN⟩ }

/-- The state in which the first iteration of the relay loop starts on the busy
link: the loop condition was evaluated once. -/
def stateIterBusy : State :=
  (loop_cond envBusyWouldBlock 1 State.init).state

/-- The listener is reported readable at once while an interrupt is pending. -/
def envReadableInterrupted : Env :=
  { Env.quiet with
    select := fun _ => ⟨1, none⟩,
    pending_interrupt := fun _ => true }

/-- The first `select` times out with an interrupt pending; the second one
reports the listener readable. -/
def envTimeoutThenReadable : Env :=
  { Env.quiet with
    select := fun i => if i = 0 then ⟨0, none⟩ else ⟨1, none⟩,
    pending_interrupt := fun _ => true }

/-- The first `select` fails with `EAGAIN`; the client then sends nothing and
closes. -/
def envSelectEagain : Env :=
  { Env.quiet with
    select := fun _ => ⟨-1, some EAGAIN⟩,
    recv := fun _ => .neg 0 none }

/-- Scenario B: no client ever connects and the interrupt is seen at the third
poll. -/
def envScenarioB : Env :=
  { Env.quiet with
    pending_interrupt := fun i => decide (2 ≤ i) }

/-- Two chunks arrive from the local peer, then it closes; the channel has
data pending on both substreams. -/
def envPeerCloses : Env :=
  { Env.quiet with
    recv := fun i => if i = 0 then .got [1, 2] else if i = 1 then .got [3] else .neg 0 none,
    ssh_channel_write := fun i => if i = 0 then 2 else 1,
    read_stdout := fun _ => .got [9, 9],
    read_stderr := fun _ => .got [8],
    send := fun _ => ⟨2, none⟩ }

/-- The state in which the first iteration of the relay loop starts when the
local peer is about to close: the loop condition was evaluated once. -/
def stateIterPeerCloses : State :=
  (loop_cond envPeerCloses 1 State.init).state

/-- After the accept, the first `recv` fails with `ECONNRESET`. -/
def envRecvFails : Env :=
  { Env.quiet with
    select := fun _ => ⟨1, none⟩,
    recv := fun _ => .neg 1 (some ECONNRESET) }

/-- The remote side refuses the forwarding channel. -/
def envOpenRefused : Env :=
  { Env.quiet with
    select := fun _ => ⟨1, none⟩,
    ssh_channel_open_forward := -1 }

/-- The local peer sends five bytes, of which `ssh_channel_write` takes two,
then one byte, which the channel takes, then closes. -/
def envShortWrite : Env :=
  { Env.quiet with
    recv := fun i =>
      if i = 0 then .got [1, 2, 3, 4, 5] else if i = 1 then .got [6] else .neg 0 none,
    ssh_channel_write := fun i => if i = 0 then 2 else 1 }

/-- The local peer sends five bytes, for which `ssh_channel_write` fails
(`SSH_ERROR`, -1), then one byte, which the channel takes, then closes. -/
def envWriteFails : Env :=
  { Env.quiet with
    recv := fun i =>
      if i = 0 then .got [1, 2, 3, 4, 5] else if i = 1 then .got [6] else .neg 0 none,
    ssh_channel_write := fun i => if i = 0 then -1 else 1 }

/-- The channel delivers three bytes, for which `send` fails with `EAGAIN`,
then two bytes, which `send` takes; the interrupt comes in the second
iteration. -/
def envSendEagain : Env :=
  { Env.quiet with
    pending_interrupt := fun i => decide (1 ≤ i),
    read_stdout := fun i =>
      if i = 0 then .got [1, 2, 3] else if i = 1 then .got [4, 5] else .neg 0 none,
    send := fun i => if i = 0 then ⟨-1, some EAGAIN⟩ else ⟨2, none⟩ }

/-- The channel delivers three bytes, of which `send` takes one and fails with
`ECONNRESET`. -/
def envSendReset : Env :=
  { Env.quiet with
    read_stdout := fun _ => .got [1, 2, 3],
    send := fun _ => ⟨1, some ECONNRESET⟩ }

/-- The local peer is idle and closes in the second iteration; the channel
delivers two bytes on its primary substream, which `send` takes. -/
def envAux : Env :=
  { Env.quiet with
    recv := fun i => if i = 0 then .neg 1 (some EAGAIN) else .neg 0 none,
    read_stdout := fun i => if i = 0 then .got [1, 2] else .neg 0 none,
    send := fun _ => ⟨2, none⟩ }

/-- Three bytes `A B C` on the auxiliary substream, then nothing. -/
def auxABC : Nat → ReadResult :=
  fun i => if i = 0 then .got [65, 66, 67] else .neg 0 none

/-- Three bytes `X Y Z` on the auxiliary substream, then nothing. -/
def auxXYZ : Nat → ReadResult :=
  fun i => if i = 0 then .got [88, 89, 90] else .neg 0 none

/-! ## Properties -/

/-! ### The `recv` loop -/

theorem pipe_local_stop (env : Env) (tunnel : Nat) (connfd : Int) (fuel : Nat) (s : State)
    (h : ¬ 0 < (env.recv s.nRecv).ret) :
    pipe_local env tunnel connfd (fuel + 1) s =
      .ok (env.recv s.nRecv).ret (recv env connfd s).state := by
  simp [pipe_local, bind, M.bind, recv, readInto, Res.state, h, pure]

theorem pipe_local_data (env : Env) (tunnel : Nat) (connfd : Int) (fuel : Nat) (s : State)
    (h : 0 < (env.recv s.nRecv).ret) :
    pipe_local env tunnel connfd (fuel + 1) s =
      pipe_local env tunnel connfd fuel (afterChunk env tunnel connfd s) := by
  simp [pipe_local, afterChunk, bind, M.bind, recv, readInto, h, ssh_channel_write,
    print_progress, spinner, Res.state]

theorem afterChunk_counters (env : Env) (tunnel : Nat) (connfd : Int) (s : State) :
    (afterChunk env tunnel connfd s).nRecv = s.nRecv + 1 ∧
    (afterChunk env tunnel connfd s).nStdout = s.nStdout ∧
    (afterChunk env tunnel connfd s).nStderr = s.nStderr ∧
    (afterChunk env tunnel connfd s).nSend = s.nSend ∧
    ∃ l, (afterChunk env tunnel connfd s).trace = s.trace ++ l ∧
      ∀ e ∈ l, e.isChannelReadOrSend = false := by
  cases h : env.recv s.nRecv <;>
    simp [afterChunk, bind, M.bind, recv, readInto, ReadResult.store, ssh_channel_write,
      print_progress, spinner, Res.state, Event.isChannelReadOrSend, h]

theorem afterChunk_errno (env : Env) (tunnel : Nat) (connfd : Int) (s : State)
    (h : 0 < (env.recv s.nRecv).ret) :
    (afterChunk env tunnel connfd s).errno = s.errno := by
  cases hr : env.recv s.nRecv with
  | got d =>
    simp [afterChunk, bind, M.bind, recv, readInto, ReadResult.store, ssh_channel_write,
      print_progress, spinner, Res.state, hr]
  | neg n e =>
    rw [hr] at h
    simp [ReadResult.ret] at h
    omega

theorem pipe_local_chunks (env : Env) (tunnel : Nat) (connfd : Int) :
    ∀ (k fuel : Nat) (s : State),
      (∀ i, i < k → 0 < (env.recv (s.nRecv + i)).ret) →
      ¬ 0 < (env.recv (s.nRecv + k)).ret → k < fuel →
      ∃ s1, pipe_local env tunnel connfd fuel s = .ok (env.recv (s.nRecv + k)).ret s1 ∧
        s1.nRecv = s.nRecv + k + 1 ∧ s1.nStdout = s.nStdout ∧ s1.nStderr = s.nStderr ∧
        s1.nSend = s.nSend ∧ s1.errno = (env.recv (s.nRecv + k)).errnoAfter s.errno ∧
        ∃ l, s1.trace = s.trace ++ l ∧ ∀ e ∈ l, e.isChannelReadOrSend = false := by
  intro k
  induction k with
  | zero =>
    intro fuel s _ hz hf
    obtain ⟨f, rfl⟩ : ∃ f, fuel = f + 1 := ⟨fuel - 1, by omega⟩
    refine ⟨(recv env connfd s).state, ?_, ?_⟩
    · simpa using pipe_local_stop env tunnel connfd f s (by simpa using hz)
    · cases h : env.recv s.nRecv <;>
        simp [recv, readInto, ReadResult.store, ReadResult.errnoAfter, Res.state,
          Event.isChannelReadOrSend, h]
  | succ k ih =>
    intro fuel s hk hz hf
    obtain ⟨f, rfl⟩ : ∃ f, fuel = f + 1 := ⟨fuel - 1, by omega⟩
    obtain ⟨hn, ho, he, hs, l0, hl0, hp0⟩ := afterChunk_counters env tunnel connfd s
    have h0 : 0 < (env.recv s.nRecv).ret := by simpa using hk 0 (by omega)
    have hidx : ∀ i, (afterChunk env tunnel connfd s).nRecv + i = s.nRecv + (i + 1) := by
      intro i
      rw [hn]
      omega
    obtain ⟨s1, hrun, h1, h2, h3, h4, h5, l, hl, hp⟩ :=
      ih f (afterChunk env tunnel connfd s)
        (fun i hi => by rw [hidx]; exact hk (i + 1) (by omega))
        (by rw [hidx]; exact hz) (by omega)
    refine ⟨s1, ?_, ?_, ?_, ?_, ?_, ?_, l0 ++ l, ?_, ?_⟩
    · rw [pipe_local_data env tunnel connfd f s h0, hrun, hidx]
    · rw [h1, hn]; omega
    · rw [h2, ho]
    · rw [h3, he]
    · rw [h4, hs]
    · rw [h5, hidx, afterChunk_errno env tunnel connfd s h0]
    · rw [hl, hl0, List.append_assoc]
    · intro e hmem
      rcases List.mem_append.mp hmem with hm | hm
      · exact hp0 e hm
      · exact hp e hm

/-! ### The stdout and stderr loops -/

theorem pipe_stderr_stop (env : Env) (tunnel : Nat) (fuel : Nat) (s : State)
    (h : ¬ 0 < (env.read_stderr s.nStderr).ret) :
    pipe_stderr env tunnel (fuel + 1) s =
      .ok (env.read_stderr s.nStderr).ret
        (ssh_channel_read_nonblocking env tunnel true s).state := by
  simp [pipe_stderr, bind, M.bind, ssh_channel_read_nonblocking, readInto, Res.state, h, pure]

theorem pipe_stderr_data (env : Env) (tunnel : Nat) (fuel : Nat) (s : State)
    (h : 0 < (env.read_stderr s.nStderr).ret) :
    pipe_stderr env tunnel (fuel + 1) s =
      pipe_stderr env tunnel fuel (afterErrChunk env tunnel s) := by
  simp [pipe_stderr, afterErrChunk, bind, M.bind, ssh_channel_read_nonblocking, readInto, h,
    reprintf, Res.state]

theorem afterErrChunk_counters (env : Env) (tunnel : Nat) (s : State)
    (h : 0 < (env.read_stderr s.nStderr).ret) :
    (afterErrChunk env tunnel s).nStderr = s.nStderr + 1 ∧
    (afterErrChunk env tunnel s).errno = s.errno := by
  cases hr : env.read_stderr s.nStderr with
  | got d =>
    simp [afterErrChunk, bind, M.bind, ssh_channel_read_nonblocking, readInto,
      ReadResult.store, reprintf, Res.state, hr]
  | neg n e =>
    rw [hr] at h
    simp [ReadResult.ret] at h
    omega

theorem pipe_stderr_chunks (env : Env) (tunnel : Nat) :
    ∀ (k fuel : Nat) (s : State),
      (∀ i, i < k → 0 < (env.read_stderr (s.nStderr + i)).ret) →
      ¬ 0 < (env.read_stderr (s.nStderr + k)).ret → k < fuel →
      ∃ s1, pipe_stderr env tunnel fuel s = .ok (env.read_stderr (s.nStderr + k)).ret s1 ∧
        s1.nStderr = s.nStderr + k + 1 ∧
        s1.errno = (env.read_stderr (s.nStderr + k)).errnoAfter s.errno := by
  intro k
  induction k with
  | zero =>
    intro fuel s _ hz hf
    obtain ⟨f, rfl⟩ : ∃ f, fuel = f + 1 := ⟨fuel - 1, by omega⟩
    refine ⟨(ssh_channel_read_nonblocking env tunnel true s).state, ?_, ?_⟩
    · simpa using pipe_stderr_stop env tunnel f s (by simpa using hz)
    · cases h : env.read_stderr s.nStderr <;>
        simp [ssh_channel_read_nonblocking, readInto, ReadResult.store,
          ReadResult.errnoAfter, Res.state, h]
  | succ k ih =>
    intro fuel s hk hz hf
    obtain ⟨f, rfl⟩ : ∃ f, fuel = f + 1 := ⟨fuel - 1, by omega⟩
    have h0 : 0 < (env.read_stderr s.nStderr).ret := by simpa using hk 0 (by omega)
    obtain ⟨hn, he⟩ := afterErrChunk_counters env tunnel s h0
    have hidx : ∀ i, (afterErrChunk env tunnel s).nStderr + i = s.nStderr + (i + 1) := by
      intro i
      rw [hn]
      omega
    obtain ⟨s1, hrun, h1, h2⟩ :=
      ih f (afterErrChunk env tunnel s)
        (fun i hi => by rw [hidx]; exact hk (i + 1) (by omega))
        (by rw [hidx]; exact hz) (by omega)
    refine ⟨s1, ?_, ?_, ?_⟩
    · rw [pipe_stderr_data env tunnel f s h0, hrun, hidx]
    · rw [h1, hn]; omega
    · rw [h2, hidx, he]

theorem pipe_stdout_stop (env : Env) (tunnel : Nat) (connfd : Int) (fuel : Nat) (s : State)
    (h : ¬ 0 < (env.read_stdout s.nStdout).ret) :
    pipe_stdout env tunnel connfd (fuel + 1) s =
      .ok (env.read_stdout s.nStdout).ret
        (ssh_channel_read_nonblocking env tunnel false s).state := by
  simp [pipe_stdout, bind, M.bind, ssh_channel_read_nonblocking, readInto, Res.state, h, pure]

theorem afterOutChunk_counters (env : Env) (tunnel : Nat) (connfd : Int) (s : State)
    (h : 0 < (env.read_stdout s.nStdout).ret) :
    (afterOutChunk env tunnel connfd s).nStdout = s.nStdout + 1 ∧
    (afterOutChunk env tunnel connfd s).nSend = s.nSend + 1 ∧
    (afterOutChunk env tunnel connfd s).errno = (env.send s.nSend).errno.getD s.errno ∧
    (afterOutChunk env tunnel connfd s).nStderr = s.nStderr := by
  cases hr : env.read_stdout s.nStdout with
  | got d =>
    simp [afterOutChunk, bind, M.bind, ssh_channel_read_nonblocking, readInto,
      ReadResult.store, send, print_progress, spinner, Res.state, hr]
  | neg n e =>
    rw [hr] at h
    simp [ReadResult.ret] at h
    omega

theorem pipe_stdout_data (env : Env) (tunnel : Nat) (connfd : Int) (fuel : Nat) (s : State)
    (h : 0 < (env.read_stdout s.nStdout).ret)
    (hs : (env.read_stdout s.nStdout).ret ≤ (env.send s.nSend).ret ∨
      isWouldBlock ((env.send s.nSend).errno.getD s.errno) = true) :
    pipe_stdout env tunnel connfd (fuel + 1) s =
      pipe_stdout env tunnel connfd fuel (afterOutChunk env tunnel connfd s) := by
  cases hr : env.read_stdout s.nStdout with
  | got d =>
    rw [hr] at h hs
    have hno : ¬ ((env.send s.nSend).ret < (ReadResult.got d).ret ∧
        isWouldBlock ((env.send s.nSend).errno.getD s.errno) = false) := by
      rintro ⟨h1, h2⟩
      rcases hs with h3 | h3
      · omega
      · rw [h3] at h2; cases h2
    simp [pipe_stdout, afterOutChunk, bind, M.bind, ssh_channel_read_nonblocking, readInto,
      ReadResult.store, send, syserror_if, NONBLOCK_OK, print_progress, spinner, Res.state,
      hr, h, hno]
  | neg n e =>
    rw [hr] at h
    simp [ReadResult.ret] at h
    omega

theorem pipe_stdout_chunks (env : Env) (tunnel : Nat) (connfd : Int) :
    ∀ (k fuel : Nat) (s : State),
      (∀ i, i < k → 0 < (env.read_stdout (s.nStdout + i)).ret ∧
        ((env.read_stdout (s.nStdout + i)).ret ≤ (env.send (s.nSend + i)).ret ∨
          isWouldBlock (errnoAfterSends env s.nSend (i + 1) s.errno) = true)) →
      ¬ 0 < (env.read_stdout (s.nStdout + k)).ret → k < fuel →
      ∃ s1, pipe_stdout env tunnel connfd fuel s =
          .ok (env.read_stdout (s.nStdout + k)).ret s1 ∧
        s1.nStdout = s.nStdout + k + 1 ∧ s1.nSend = s.nSend + k ∧
        s1.errno = (env.read_stdout (s.nStdout + k)).errnoAfter
          (errnoAfterSends env s.nSend k s.errno) ∧
        s1.nStderr = s.nStderr := by
  intro k
  induction k with
  | zero =>
    intro fuel s _ hz hf
    obtain ⟨f, rfl⟩ : ∃ f, fuel = f + 1 := ⟨fuel - 1, by omega⟩
    refine ⟨(ssh_channel_read_nonblocking env tunnel false s).state, ?_, ?_⟩
    · simpa using pipe_stdout_stop env tunnel connfd f s (by simpa using hz)
    · cases h : env.read_stdout s.nStdout <;>
        simp [ssh_channel_read_nonblocking, readInto, ReadResult.store,
          ReadResult.errnoAfter, errnoAfterSends, Res.state, h]
  | succ k ih =>
    intro fuel s hk hz hf
    obtain ⟨f, rfl⟩ : ∃ f, fuel = f + 1 := ⟨fuel - 1, by omega⟩
    obtain ⟨h0, hs0⟩ := hk 0 (by omega)
    simp only [Nat.add_zero, errnoAfterSends] at h0 hs0
    obtain ⟨hn, hsd, he, hne⟩ := afterOutChunk_counters env tunnel connfd s h0
    have hidx : ∀ i, (afterOutChunk env tunnel connfd s).nStdout + i = s.nStdout + (i + 1) := by
      intro i
      rw [hn]
      omega
    have hidx2 : ∀ i, (afterOutChunk env tunnel connfd s).nSend + i = s.nSend + (i + 1) := by
      intro i
      rw [hsd]
      omega
    obtain ⟨s1, hrun, h1, h2, h3, h4⟩ :=
      ih f (afterOutChunk env tunnel connfd s)
        (fun i hi => by
          rw [hidx, hidx2, hsd, he]
          exact hk (i + 1) (by omega))
        (by rw [hidx]; exact hz) (by omega)
    refine ⟨s1, ?_, ?_, ?_, ?_, ?_⟩
    · rw [pipe_stdout_data env tunnel connfd f s h0 hs0, hrun, hidx]
    · rw [h1, hn]; omega
    · rw [h2, hsd]; omega
    · rw [h3, hidx, hsd, he]
      rfl
    · rw [h4, hne]

theorem print_progress_ok (add : Int) (s : State) :
    print_progress add s = .ok () (print_progress add s).state := by
  simp [print_progress, spinner, Res.state]

/-- After `k` chunks of data a `recv` returns -1 with a would-block `errno`:
the `recv` stage ends without an error and hands -1 on. -/
theorem drain_local_would_block (env : Env) (tunnel : Nat) (connfd : Int) (k fuel : Nat)
    (s : State) (e : Option Int)
    (hk : ∀ i, i < k → 0 < (env.recv (s.nRecv + i)).ret)
    (hlast : env.recv (s.nRecv + k) = .neg 1 e)
    (hwb : isWouldBlock (e.getD s.errno) = true) (hf : k < fuel) :
    ∃ s1, drain_local env tunnel connfd fuel s = .ok (-1) s1 ∧
      s1.errno = e.getD s.errno ∧ s1.nRecv = s.nRecv + k + 1 ∧ s1.nStdout = s.nStdout ∧
      s1.nStderr = s.nStderr ∧ s1.nSend = s.nSend := by
  obtain ⟨s1, hrun, h1, h2, h3, h4, h5, _⟩ :=
    pipe_local_chunks env tunnel connfd k fuel s hk
      (by rw [hlast]; simp [ReadResult.ret]) hf
  rw [hlast] at hrun h5
  have h5 : s1.errno = e.getD s.errno := h5
  refine ⟨s1, ?_, h5, h1, h2, h3, h4⟩
  simp only [drain_local, bind, M.bind, hrun]
  simp [syserror_if, NONBLOCK_OK, ReadResult.ret, h5, hwb, pure]

/-- After `k` chunks of data, each passed on by a `send` that took all of it
or left a would-block `errno`, a read of the primary substream returns -1 with
a would-block `errno`: the stdout stage ends without an error. -/
theorem drain_stdout_would_block (env : Env) (tunnel : Nat) (connfd : Int) (k fuel : Nat)
    (s : State) (e : Option Int)
    (hk : ∀ i, i < k → 0 < (env.read_stdout (s.nStdout + i)).ret ∧
      ((env.read_stdout (s.nStdout + i)).ret ≤ (env.send (s.nSend + i)).ret ∨
        isWouldBlock (errnoAfterSends env s.nSend (i + 1) s.errno) = true))
    (hlast : env.read_stdout (s.nStdout + k) = .neg 1 e)
    (hwb : isWouldBlock (e.getD (errnoAfterSends env s.nSend k s.errno)) = true)
    (hf : k < fuel) :
    ∃ s1, drain_stdout env tunnel connfd fuel s = .ok () s1 ∧
      s1.errno = e.getD (errnoAfterSends env s.nSend k s.errno) ∧
      s1.nStdout = s.nStdout + k + 1 ∧ s1.nSend = s.nSend + k ∧
      s1.nStderr = s.nStderr := by
  obtain ⟨s1, hrun, h1, h2, h3, h4⟩ :=
    pipe_stdout_chunks env tunnel connfd k fuel s hk
      (by rw [hlast]; simp [ReadResult.ret]) hf
  rw [hlast] at hrun h3
  have h3 : s1.errno = e.getD (errnoAfterSends env s.nSend k s.errno) := h3
  refine ⟨s1, ?_, h3, h1, h2, h4⟩
  simp only [drain_stdout, bind, M.bind, hrun]
  simp [syserror_if, NONBLOCK_OK, h3, hwb]

/-- After `k` chunks of data a read of the auxiliary substream returns -1 with
a would-block `errno`: the stderr stage ends without an error. -/
theorem drain_stderr_would_block (env : Env) (tunnel : Nat) (k fuel : Nat)
    (s : State) (e : Option Int)
    (hk : ∀ i, i < k → 0 < (env.read_stderr (s.nStderr + i)).ret)
    (hlast : env.read_stderr (s.nStderr + k) = .neg 1 e)
    (hwb : isWouldBlock (e.getD s.errno) = true) (hf : k < fuel) :
    ∃ s1, drain_stderr env tunnel fuel s = .ok () s1 ∧
      s1.errno = e.getD s.errno ∧ s1.nStderr = s.nStderr + k + 1 := by
  obtain ⟨s1, hrun, h1, h2⟩ :=
    pipe_stderr_chunks env tunnel k fuel s hk
      (by rw [hlast]; simp [ReadResult.ret]) hf
  rw [hlast] at hrun h2
  have h2 : s1.errno = e.getD s.errno := h2
  refine ⟨s1, ?_, h2, h1⟩
  simp only [drain_stderr, bind, M.bind, hrun]
  simp [syserror_if, NONBLOCK_OK, h2, hwb]

/-! ### Two runs that differ in the auxiliary substream only -/

theorem RTriple.rbind {α β : Type} {P : State → State → Prop} {m1 m2 : M α}
    {Q : α → State → State → Prop} {f1 f2 : α → M β} {Q2 : β → State → State → Prop}
    (h1 : RTriple P m1 m2 Q) (h2 : ∀ a, RTriple (Q a) (f1 a) (f2 a) Q2) :
    RTriple P (m1 >>= f1) (m2 >>= f2) Q2 := by
  intro s1 s2 hP
  have h := h1 s1 s2 hP
  simp only [Bind.bind, M.bind]
  cases hm1 : m1 s1 <;> cases hm2 : m2 s2 <;> simp only [hm1, hm2, ResRel] at h ⊢
  · obtain ⟨rfl, hq⟩ := h
    exact h2 _ _ _ hq
  · exact h
  · exact h

theorem RTriple.rpure {α : Type} {P : State → State → Prop} {Q : α → State → State → Prop}
    (a : α) (h : ∀ s1 s2, P s1 s2 → Q a s1 s2) :
    RTriple P (pure a : M α) (pure a : M α) Q := by
  intro s1 s2 hP
  exact ⟨rfl, h s1 s2 hP⟩

theorem RTriple.rite {α : Type} {P : State → State → Prop} {Q : α → State → State → Prop}
    (c : Prop) [Decidable c] {a1 a2 b1 b2 : M α}
    (ht : c → RTriple P a1 a2 Q) (he : ¬ c → RTriple P b1 b2 Q) :
    RTriple P (if c then a1 else b1) (if c then a2 else b2) Q := by
  by_cases hc : c
  · simpa [hc] using ht hc
  · simpa [hc] using he hc

theorem RTriple.rweaken {α : Type} {P P2 : State → State → Prop} {m1 m2 : M α}
    {Q : α → State → State → Prop}
    (h : RTriple P m1 m2 Q) (hp : ∀ s1 s2, P2 s1 s2 → P s1 s2) :
    RTriple P2 m1 m2 Q :=
  fun s1 s2 h2 => h s1 s2 (hp s1 s2 h2)

theorem Sim.refl (s : State) : Sim s s :=
  ⟨rfl, rfl, rfl, rfl, rfl, rfl, rfl, rfl, rfl, rfl, rfl, rfl, rfl⟩

theorem emit_sim (e1 e2 : Event) (h : e1.eraseAux = e2.eraseAux) :
    RTriple Sim (emit e1) (emit e2) (fun _ => Sim) := by
  intro s1 s2 hs
  refine ⟨rfl, ?_⟩
  constructor <;> simp [hs.errno, hs.x, hs.total, hs.nSelect, hs.nInterrupt, hs.nIsOpen,
    hs.nIsEof, hs.nRecv, hs.nWrite, hs.nStdout, hs.nStderr, hs.nSend, hs.trace, h]

theorem Env.withStderr_read_stderr (env : Env) (f : Nat → ReadResult) :
    (env.withStderr f).read_stderr = f := rfl

theorem pending_interrupt_sim (env : Env) (f g : Nat → ReadResult) :
    RTriple Sim (pending_interrupt (env.withStderr f)) (pending_interrupt (env.withStderr g))
      (fun _ => Sim) := by
  intro s1 s2 hs
  refine ⟨by simp [Env.withStderr, hs.nInterrupt], ?_⟩
  constructor <;> simp [Env.withStderr, hs.errno, hs.x, hs.total, hs.nSelect, hs.nInterrupt,
    hs.nIsOpen, hs.nIsEof, hs.nRecv, hs.nWrite, hs.nStdout, hs.nStderr, hs.nSend, hs.trace]

theorem ssh_channel_is_open_sim (env : Env) (f g : Nat → ReadResult) (tunnel : Nat) :
    RTriple Sim (ssh_channel_is_open (env.withStderr f) tunnel)
      (ssh_channel_is_open (env.withStderr g) tunnel) (fun _ => Sim) := by
  intro s1 s2 hs
  refine ⟨by simp [Env.withStderr, hs.nIsOpen], ?_⟩
  constructor <;> simp [Env.withStderr, hs.errno, hs.x, hs.total, hs.nSelect, hs.nInterrupt,
    hs.nIsOpen, hs.nIsEof, hs.nRecv, hs.nWrite, hs.nStdout, hs.nStderr, hs.nSend, hs.trace]

theorem ssh_channel_is_eof_sim (env : Env) (f g : Nat → ReadResult) (tunnel : Nat) :
    RTriple Sim (ssh_channel_is_eof (env.withStderr f) tunnel)
      (ssh_channel_is_eof (env.withStderr g) tunnel) (fun _ => Sim) := by
  intro s1 s2 hs
  refine ⟨by simp [Env.withStderr, hs.nIsEof], ?_⟩
  constructor <;> simp [Env.withStderr, hs.errno, hs.x, hs.total, hs.nSelect, hs.nInterrupt,
    hs.nIsOpen, hs.nIsEof, hs.nRecv, hs.nWrite, hs.nStdout, hs.nStderr, hs.nSend, hs.trace]

theorem print_progress_sim (add : Int) :
    RTriple Sim (print_progress add) (print_progress add) (fun _ => Sim) := by
  intro s1 s2 hs
  simp only [print_progress, spinner, ResRel, true_and]
  constructor <;> simp [Event.eraseAux, hs.errno, hs.x, hs.total, hs.nSelect,
    hs.nInterrupt, hs.nIsOpen, hs.nIsEof, hs.nRecv, hs.nWrite, hs.nStdout, hs.nStderr,
    hs.nSend, hs.trace]

theorem syserror_if_sim (err : Bool) (what : String) :
    RTriple Sim (syserror_if err what) (syserror_if err what) (fun _ => Sim) := by
  intro s1 s2 hs
  simp only [syserror_if, NONBLOCK_OK, hs.errno]
  split
  · exact ⟨rfl, hs⟩
  · exact ⟨rfl, hs⟩

theorem reprintf_sim (avail : Int) :
    RTriple Sim (reprintf avail) (reprintf avail) (fun _ => Sim) := by
  intro s1 s2 hs
  refine ⟨rfl, ?_⟩
  constructor <;> simp [Event.eraseAux, hs.errno, hs.x, hs.total, hs.nSelect,
    hs.nInterrupt, hs.nIsOpen, hs.nIsEof, hs.nRecv, hs.nWrite, hs.nStdout, hs.nStderr,
    hs.nSend, hs.trace]

theorem readInto_simBuf (r : ReadResult) (s1 s2 : State) (hs : Sim s1 s2) :
    SimBuf r.ret (r.store s1) (r.store s2) := by
  cases r with
  | got d =>
    refine ⟨?_, ?_⟩
    · constructor <;> simp [ReadResult.store, hs.errno, hs.x, hs.total, hs.nSelect,
        hs.nInterrupt, hs.nIsOpen, hs.nIsEof, hs.nRecv, hs.nWrite, hs.nStdout, hs.nStderr,
        hs.nSend, hs.trace]
    · have hlen : ((ReadResult.got d).ret).toNat = (List.take BUFSIZE d).length := by
        simp only [ReadResult.ret, Int.toNat_ofNat]
      show List.take _ (List.take BUFSIZE d ++ _) = List.take _ (List.take BUFSIZE d ++ _)
      rw [hlen, List.take_left, List.take_left]
  | neg n e =>
    refine ⟨?_, ?_⟩
    · constructor <;> simp [ReadResult.store, hs.errno, hs.x, hs.total, hs.nSelect,
        hs.nInterrupt, hs.nIsOpen, hs.nIsEof, hs.nRecv, hs.nWrite, hs.nStdout, hs.nStderr,
        hs.nSend, hs.trace]
    · simp [ReadResult.store, ReadResult.ret]

theorem recv_sim (env : Env) (f g : Nat → ReadResult) (connfd : Int) :
    RTriple Sim (recv (env.withStderr f) connfd) (recv (env.withStderr g) connfd)
      (fun a => SimBuf a) := by
  intro s1 s2 hs
  have hr : (env.withStderr f).recv s1.nRecv = (env.withStderr g).recv s2.nRecv := by
    simp [Env.withStderr, hs.nRecv]
  simp only [recv, readInto, ResRel, hr, true_and]
  apply readInto_simBuf
  constructor <;> simp [Event.eraseAux, hs.errno, hs.x, hs.total, hs.nSelect,
    hs.nInterrupt, hs.nIsOpen, hs.nIsEof, hs.nRecv, hs.nWrite, hs.nStdout, hs.nStderr,
    hs.nSend, hs.trace]

theorem ssh_channel_write_sim (env : Env) (f g : Nat → ReadResult) (tunnel : Nat)
    (avail : Int) :
    RTriple (SimBuf avail) (ssh_channel_write (env.withStderr f) tunnel avail)
      (ssh_channel_write (env.withStderr g) tunnel avail) (fun _ => Sim) := by
  intro s1 s2 hb
  obtain ⟨hs, hbuf⟩ := hb
  refine ⟨by simp [Env.withStderr, hs.nWrite], ?_⟩
  constructor <;> simp [Env.withStderr, Event.eraseAux, hbuf, hs.errno, hs.x, hs.total,
    hs.nSelect, hs.nInterrupt, hs.nIsOpen, hs.nIsEof, hs.nRecv, hs.nWrite, hs.nStdout,
    hs.nStderr, hs.nSend, hs.trace]

theorem send_sim (env : Env) (f g : Nat → ReadResult) (connfd : Int) (avail : Int) :
    RTriple (SimBuf avail) (send (env.withStderr f) connfd avail)
      (send (env.withStderr g) connfd avail) (fun _ => Sim) := by
  intro s1 s2 hb
  obtain ⟨hs, hbuf⟩ := hb
  refine ⟨by simp [Env.withStderr, hs.nSend], ?_⟩
  constructor <;> simp [Env.withStderr, Event.eraseAux, hbuf, hs.errno, hs.x, hs.total,
    hs.nSelect, hs.nInterrupt, hs.nIsOpen, hs.nIsEof, hs.nRecv, hs.nWrite, hs.nStdout,
    hs.nStderr, hs.nSend, hs.trace]

theorem read_stdout_sim (env : Env) (f g : Nat → ReadResult) (tunnel : Nat) :
    RTriple Sim (ssh_channel_read_nonblocking (env.withStderr f) tunnel false)
      (ssh_channel_read_nonblocking (env.withStderr g) tunnel false)
      (fun a => SimBuf a) := by
  intro s1 s2 hs
  have hr : (env.withStderr f).read_stdout s1.nStdout =
      (env.withStderr g).read_stdout s2.nStdout := by
    simp [Env.withStderr, hs.nStdout]
  simp only [ssh_channel_read_nonblocking, readInto, ResRel, hr, true_and, Bool.false_eq_true,
    if_false]
  apply readInto_simBuf
  constructor <;> simp [Event.eraseAux, hs.errno, hs.x, hs.total, hs.nSelect,
    hs.nInterrupt, hs.nIsOpen, hs.nIsEof, hs.nRecv, hs.nWrite, hs.nStdout, hs.nStderr,
    hs.nSend, hs.trace]

theorem sameShape_ret (r1 r2 : ReadResult) (h : sameShape r1 r2 = true) :
    r1.ret = r2.ret := by
  cases r1 <;> cases r2 <;> simp_all [sameShape, ReadResult.ret, List.length_take]

theorem sameShape_store (r1 r2 : ReadResult) (h : sameShape r1 r2 = true) (s1 s2 : State)
    (hs : Sim s1 s2) : Sim (r1.store s1) (r2.store s2) := by
  cases r1 <;> cases r2 <;> simp [sameShape] at h
  · constructor <;> simp [ReadResult.store, hs.errno, hs.x, hs.total, hs.nSelect,
      hs.nInterrupt, hs.nIsOpen, hs.nIsEof, hs.nRecv, hs.nWrite, hs.nStdout, hs.nStderr,
      hs.nSend, hs.trace]
  · obtain ⟨_, rfl⟩ := h
    constructor <;> simp [ReadResult.store, hs.errno, hs.x, hs.total, hs.nSelect,
      hs.nInterrupt, hs.nIsOpen, hs.nIsEof, hs.nRecv, hs.nWrite, hs.nStdout, hs.nStderr,
      hs.nSend, hs.trace]

theorem sameShape_eraseAux (tunnel : Nat) (r1 r2 : ReadResult)
    (h : sameShape r1 r2 = true) :
    (Event.ssh_channel_read_nonblocking tunnel true r1).eraseAux =
      (Event.ssh_channel_read_nonblocking tunnel true r2).eraseAux := by
  cases r1 <;> cases r2 <;> simp_all [sameShape, Event.eraseAux]

theorem read_stderr_sim (env : Env) (f g : Nat → ReadResult)
    (hfg : ∀ i, sameShape (f i) (g i) = true) (tunnel : Nat) :
    RTriple Sim (ssh_channel_read_nonblocking (env.withStderr f) tunnel true)
      (ssh_channel_read_nonblocking (env.withStderr g) tunnel true) (fun _ => Sim) := by
  intro s1 s2 hs
  have hsh : sameShape (f s2.nStderr) (g s2.nStderr) = true := hfg _
  simp only [ssh_channel_read_nonblocking, readInto, ResRel, if_true,
    Env.withStderr_read_stderr, hs.nStderr]
  refine ⟨sameShape_ret _ _ hsh, ?_⟩
  apply sameShape_store _ _ hsh
  have he := sameShape_eraseAux tunnel _ _ hsh
  constructor <;> simp [he, hs.errno, hs.x, hs.total, hs.nSelect,
    hs.nInterrupt, hs.nIsOpen, hs.nIsEof, hs.nRecv, hs.nWrite, hs.nStdout, hs.nStderr,
    hs.nSend, hs.trace]

theorem pipe_local_sim (env : Env) (f g : Nat → ReadResult) (tunnel : Nat) (connfd : Int) :
    ∀ fuel, RTriple Sim (pipe_local (env.withStderr f) tunnel connfd fuel)
      (pipe_local (env.withStderr g) tunnel connfd fuel) (fun _ => Sim) := by
  intro fuel
  induction fuel with
  | zero => exact fun s1 s2 hs => hs
  | succ n ih =>
    simp only [pipe_local]
    refine RTriple.rbind (recv_sim env f g connfd) (fun a => ?_)
    refine RTriple.rite _ (fun _ => ?_) (fun _ => ?_)
    · refine RTriple.rbind (ssh_channel_write_sim env f g tunnel a) (fun _ => ?_)
      exact RTriple.rbind (print_progress_sim a) (fun _ => ih)
    · exact RTriple.rpure a (fun _ _ h => h.1)

theorem pipe_stdout_sim (env : Env) (f g : Nat → ReadResult) (tunnel : Nat) (connfd : Int) :
    ∀ fuel, RTriple Sim (pipe_stdout (env.withStderr f) tunnel connfd fuel)
      (pipe_stdout (env.withStderr g) tunnel connfd fuel) (fun _ => Sim) := by
  intro fuel
  induction fuel with
  | zero => exact fun s1 s2 hs => hs
  | succ n ih =>
    simp only [pipe_stdout]
    refine RTriple.rbind (read_stdout_sim env f g tunnel) (fun a => ?_)
    refine RTriple.rite _ (fun _ => ?_) (fun _ => ?_)
    · refine RTriple.rbind (send_sim env f g connfd a) (fun sent => ?_)
      refine RTriple.rbind (syserror_if_sim _ _) (fun _ => ?_)
      exact RTriple.rbind (print_progress_sim a) (fun _ => ih)
    · exact RTriple.rpure a (fun _ _ h => h.1)

theorem pipe_stderr_sim (env : Env) (f g : Nat → ReadResult)
    (hfg : ∀ i, sameShape (f i) (g i) = true) (tunnel : Nat) :
    ∀ fuel, RTriple Sim (pipe_stderr (env.withStderr f) tunnel fuel)
      (pipe_stderr (env.withStderr g) tunnel fuel) (fun _ => Sim) := by
  intro fuel
  induction fuel with
  | zero => exact fun s1 s2 hs => hs
  | succ n ih =>
    simp only [pipe_stderr]
    refine RTriple.rbind (read_stderr_sim env f g hfg tunnel) (fun a => ?_)
    refine RTriple.rite _ (fun _ => ?_) (fun _ => ?_)
    · exact RTriple.rbind (reprintf_sim a) (fun _ => ih)
    · exact RTriple.rpure a (fun _ _ h => h)

theorem loop_cond_sim (env : Env) (f g : Nat → ReadResult) (tunnel : Nat) :
    RTriple Sim (loop_cond (env.withStderr f) tunnel) (loop_cond (env.withStderr g) tunnel)
      (fun _ => Sim) := by
  simp only [loop_cond]
  refine RTriple.rbind (pending_interrupt_sim env f g) (fun intr => ?_)
  refine RTriple.rite _ (fun _ => ?_) (fun _ => ?_)
  · exact RTriple.rpure _ (fun _ _ h => h)
  · refine RTriple.rbind (ssh_channel_is_open_sim env f g tunnel) (fun isOpen => ?_)
    refine RTriple.rite _ (fun _ => ?_) (fun _ => ?_)
    · exact RTriple.rpure _ (fun _ _ h => h)
    · refine RTriple.rbind (ssh_channel_is_eof_sim env f g tunnel) (fun isEof => ?_)
      exact RTriple.rpure _ (fun _ _ h => h)

theorem loop_body_sim (env : Env) (f g : Nat → ReadResult)
    (hfg : ∀ i, sameShape (f i) (g i) = true) (tunnel : Nat) (connfd : Int) (fuel : Nat) :
    RTriple Sim (loop_body (env.withStderr f) tunnel connfd fuel)
      (loop_body (env.withStderr g) tunnel connfd fuel) (fun _ => Sim) := by
  simp only [loop_body, drain_local, after_local, drain_stdout, drain_stderr]
  refine RTriple.rbind (emit_sim _ _ rfl) (fun _ => ?_)
  refine RTriple.rbind (Q := fun _ => Sim) ?_ (fun avail => ?_)
  · refine RTriple.rbind (pipe_local_sim env f g tunnel connfd fuel) (fun a => ?_)
    refine RTriple.rbind (syserror_if_sim _ _) (fun _ => ?_)
    exact RTriple.rpure _ (fun _ _ h => h)
  · refine RTriple.rite _ (fun _ => ?_) (fun _ => ?_)
    · exact RTriple.rpure _ (fun _ _ h => h)
    · refine RTriple.rbind (Q := fun _ => Sim) ?_ (fun _ => ?_)
      · refine RTriple.rbind (pipe_stdout_sim env f g tunnel connfd fuel) (fun a => ?_)
        exact syserror_if_sim _ _
      · refine RTriple.rbind (Q := fun _ => Sim) ?_ (fun _ => ?_)
        · refine RTriple.rbind (pipe_stderr_sim env f g hfg tunnel fuel) (fun a => ?_)
          exact syserror_if_sim _ _
        · refine RTriple.rbind (print_progress_sim 0) (fun _ => ?_)
          exact RTriple.rpure _ (fun _ _ h => h)

theorem relay_sim (env : Env) (f g : Nat → ReadResult)
    (hfg : ∀ i, sameShape (f i) (g i) = true) (tunnel : Nat) (connfd : Int) :
    ∀ fuel, RTriple Sim (relay (env.withStderr f) tunnel connfd fuel)
      (relay (env.withStderr g) tunnel connfd fuel) (fun _ => Sim) := by
  intro fuel
  induction fuel with
  | zero => exact fun s1 s2 hs => hs
  | succ n ih =>
    simp only [relay]
    refine RTriple.rbind (loop_cond_sim env f g tunnel) (fun go => ?_)
    refine RTriple.rite _ (fun _ => ?_) (fun _ => ?_)
    · refine RTriple.rbind (loop_body_sim env f g hfg tunnel connfd n) (fun again => ?_)
      refine RTriple.rite _ (fun _ => ih) (fun _ => ?_)
      exact RTriple.rpure _ (fun _ _ h => h)
    · exact RTriple.rpure _ (fun _ _ h => h)

theorem host_tunnel_sim (env : Env) (f g : Nat → ReadResult)
    (hfg : ∀ i, sameShape (f i) (g i) = true) (tunnel : Nat) (connfd : Int) (fuel : Nat) :
    RTriple Sim (host_tunnel (env.withStderr f) tunnel connfd fuel)
      (host_tunnel (env.withStderr g) tunnel connfd fuel) (fun _ => Sim) := by
  simp only [host_tunnel, cleanup]
  refine RTriple.rbind (print_progress_sim _) (fun _ => ?_)
  refine RTriple.rbind (relay_sim env f g hfg tunnel connfd fuel) (fun _ => ?_)
  refine RTriple.rbind (Q := fun _ => Sim) ?_ (fun _ => ?_)
  · exact emit_sim _ _ rfl
  · refine RTriple.rbind (emit_sim _ _ rfl) (fun _ => ?_)
    refine RTriple.rbind (emit_sim _ _ rfl) (fun _ => ?_)
    exact emit_sim _ _ rfl

theorem ResRel.sim_state {α : Type} {r1 r2 : Res α} (h : ResRel (fun _ => Sim) r1 r2) :
    Sim r1.state r2.state := by
  cases r1 <;> cases r2 <;> simp only [ResRel, Res.state] at h ⊢
  · exact h.2
  · exact h.2
  · exact h

theorem filter_isForward_eraseAux (l : List Event) :
    (l.map Event.eraseAux).filter Event.isForward = l.filter Event.isForward := by
  induction l with
  | nil => rfl
  | cons e l ih =>
    have he : (e.eraseAux.isForward = e.isForward) ∧
        (e.isForward = true → e.eraseAux = e) := by
      cases e with
      | ssh_channel_read_nonblocking t b r =>
        cases b <;> cases r <;> simp [Event.eraseAux, Event.isForward]
      | _ => simp [Event.eraseAux, Event.isForward]
    simp only [List.map_cons, List.filter_cons, he.1]
    by_cases hf : e.isForward = true
    · simp [hf, he.2 hf, ih]
    · simp [hf, ih]

theorem toLocal_filter_isForward (l : List Event) :
    toLocal (l.filter Event.isForward) = toLocal l := by
  induction l with
  | nil => rfl
  | cons e l ih =>
    simp only [toLocal] at ih ⊢
    cases e <;> simp [List.filter_cons, Event.isForward, Event.toLocal, ih]

theorem toChannel_filter_isForward (l : List Event) :
    toChannel (l.filter Event.isForward) = toChannel l := by
  induction l with
  | nil => rfl
  | cons e l ih =>
    simp only [toChannel] at ih ⊢
    cases e <;> simp [List.filter_cons, Event.isForward, Event.toChannel, ih]

/-! ### Delivery to the local connection -/

theorem Triple.tbind {α β : Type} {P : State → Prop} {m : M α} {Q : α → State → Prop}
    {E : State → Prop} {f : α → M β} {Q2 : β → State → Prop}
    (h1 : Triple P m Q E) (h2 : ∀ a, Triple (Q a) (f a) Q2 E) :
    Triple P (m >>= f) Q2 E := by
  intro s hP
  have h := h1 s hP
  simp only [Bind.bind, M.bind]
  cases hm : m s <;> simp only [hm] at h ⊢
  · exact h2 _ _ h
  · exact h
  · exact h

theorem Triple.tpure {α : Type} {P : State → Prop} {Q : α → State → Prop} {E : State → Prop}
    (a : α) (h : ∀ s, P s → Q a s) : Triple P (pure a : M α) Q E :=
  fun s hP => h s hP

theorem Triple.tite {α : Type} {P : State → Prop} {Q : α → State → Prop} {E : State → Prop}
    (c : Prop) [Decidable c] {a b : M α}
    (ht : c → Triple P a Q E) (he : ¬ c → Triple P b Q E) :
    Triple P (if c then a else b) Q E := by
  by_cases hc : c
  · simpa [hc] using ht hc
  · simpa [hc] using he hc

theorem Quiet.qbind {α β : Type} {m : M α} {f : α → M β} (h1 : Quiet m)
    (h2 : ∀ a, Quiet (f a)) : Quiet (m >>= f) := by
  intro s
  obtain ⟨l1, ht1, hq1⟩ := h1 s
  simp only [Bind.bind, M.bind]
  cases hm : m s with
  | ok a s1 =>
    simp only [hm] at ht1 ⊢
    have ht1 : s1.trace = s.trace ++ l1 := ht1
    obtain ⟨l2, ht2, hq2⟩ := h2 a s1
    refine ⟨l1 ++ l2, ?_, ?_⟩
    · rw [ht2, ht1, List.append_assoc]
    · intro e he
      rcases List.mem_append.mp he with h | h
      · exact hq1 e h
      · exact hq2 e h
  | raised w s1 =>
    simp only [hm] at ht1 ⊢
    exact ⟨l1, ht1, hq1⟩
  | timeout s1 =>
    simp only [hm] at ht1 ⊢
    exact ⟨l1, ht1, hq1⟩

theorem Quiet.qpure {α : Type} (a : α) : Quiet (pure a : M α) :=
  fun s => ⟨[], by simp [Pure.pure, Res.state], by simp⟩

theorem Quiet.qite {α : Type} (c : Prop) [Decidable c] {a b : M α}
    (ht : Quiet a) (he : Quiet b) : Quiet (if c then a else b) := by
  by_cases hc : c
  · simpa [hc] using ht
  · simpa [hc] using he

theorem Quiet.timeout {α : Type} : Quiet (fun s => (Res.timeout s : Res α)) :=
  fun s => ⟨[], by simp [Res.state], by simp⟩

theorem emit_quiet (e : Event) (h : e.isPrimaryOrSend = false) : Quiet (emit e) :=
  fun s => ⟨[e], by simp [emit, Res.state], by simpa using h⟩

theorem pending_interrupt_quiet (env : Env) : Quiet (pending_interrupt env) :=
  fun s => ⟨[.pending_interrupt (env.pending_interrupt s.nInterrupt)],
    by simp [pending_interrupt, Res.state], by simp [Event.isPrimaryOrSend]⟩

theorem ssh_channel_is_open_quiet (env : Env) (tunnel : Nat) :
    Quiet (ssh_channel_is_open env tunnel) :=
  fun s => ⟨[.ssh_channel_is_open tunnel (env.ssh_channel_is_open s.nIsOpen)],
    by simp [ssh_channel_is_open, Res.state], by simp [Event.isPrimaryOrSend]⟩

theorem ssh_channel_is_eof_quiet (env : Env) (tunnel : Nat) :
    Quiet (ssh_channel_is_eof env tunnel) :=
  fun s => ⟨[.ssh_channel_is_eof tunnel (env.ssh_channel_is_eof s.nIsEof)],
    by simp [ssh_channel_is_eof, Res.state], by simp [Event.isPrimaryOrSend]⟩

theorem store_trace (r : ReadResult) (s : State) : (r.store s).trace = s.trace := by
  cases r <;> rfl

theorem recv_quiet (env : Env) (connfd : Int) : Quiet (recv env connfd) :=
  fun s => ⟨[.recv connfd (env.recv s.nRecv)],
    by simp [recv, readInto, Res.state, store_trace], by simp [Event.isPrimaryOrSend]⟩

theorem read_stderr_quiet (env : Env) (tunnel : Nat) :
    Quiet (ssh_channel_read_nonblocking env tunnel true) :=
  fun s => ⟨[.ssh_channel_read_nonblocking tunnel true (env.read_stderr s.nStderr)],
    by simp [ssh_channel_read_nonblocking, readInto, Res.state, store_trace],
    by simp [Event.isPrimaryOrSend]⟩

theorem ssh_channel_write_quiet (env : Env) (tunnel : Nat) (avail : Int) :
    Quiet (ssh_channel_write env tunnel avail) :=
  fun s => ⟨[.ssh_channel_write tunnel (s.buf.take avail.toNat) (env.ssh_channel_write s.nWrite)],
    by simp [ssh_channel_write, Res.state], by simp [Event.isPrimaryOrSend]⟩

theorem print_progress_quiet (add : Int) : Quiet (print_progress add) :=
  fun s => ⟨[.rprintf_progress (spinnerChar ((s.x + 1) % 4))
      (wrap32 ((if add < 0 then 0 else s.total) + add))],
    by simp [print_progress, spinner, Res.state], by simp [Event.isPrimaryOrSend]⟩

theorem reprintf_quiet (avail : Int) : Quiet (reprintf avail) :=
  fun s => ⟨[.reprintf ((s.buf.take avail.toNat).takeWhile (fun b => b != 0))],
    by simp [reprintf, Res.state], by simp [Event.isPrimaryOrSend]⟩

theorem syserror_if_quiet (err : Bool) (what : String) : Quiet (syserror_if err what) := by
  intro s
  refine ⟨[], ?_, by simp⟩
  simp only [syserror_if]
  split <;> simp [Res.state]

theorem toLocal_of_quiet (e : Event) (h : e.isPrimaryOrSend = false) : e.toLocal = [] := by
  cases e with
  | send fd o r en => exact absurd h (by simp [Event.isPrimaryOrSend])
  | _ => rfl

theorem fromPrimary_of_quiet (e : Event) (h : e.isPrimaryOrSend = false) :
    e.fromPrimary = [] := by
  cases e with
  | ssh_channel_read_nonblocking t b r =>
    cases b
    · exact absurd h (by simp [Event.isPrimaryOrSend])
    · rfl
  | _ => rfl

theorem isWouldBlockShortSend_of_quiet (e : Event) (h : e.isPrimaryOrSend = false) :
    e.isWouldBlockShortSend = false := by
  cases e with
  | send fd o r en => exact absurd h (by simp [Event.isPrimaryOrSend])
  | _ => rfl

theorem toLocal_append (l1 l2 : List Event) : toLocal (l1 ++ l2) = toLocal l1 ++ toLocal l2 := by
  simp [toLocal]

theorem fromPrimary_append (l1 l2 : List Event) :
    fromPrimary (l1 ++ l2) = fromPrimary l1 ++ fromPrimary l2 := by
  simp [fromPrimary]

theorem toLocal_quiet (l : List Event) (h : ∀ e ∈ l, e.isPrimaryOrSend = false) :
    toLocal l = [] := by
  induction l with
  | nil => rfl
  | cons e l ih =>
    have h1 := toLocal_of_quiet e (h e (List.mem_cons_self _ _))
    have h2 := ih (fun x hx => h x (List.mem_cons_of_mem _ hx))
    simp only [toLocal, List.flatMap_cons] at h2 ⊢
    rw [h1, h2]
    rfl

theorem fromPrimary_quiet (l : List Event) (h : ∀ e ∈ l, e.isPrimaryOrSend = false) :
    fromPrimary l = [] := by
  induction l with
  | nil => rfl
  | cons e l ih =>
    have h1 := fromPrimary_of_quiet e (h e (List.mem_cons_self _ _))
    have h2 := ih (fun x hx => h x (List.mem_cons_of_mem _ hx))
    simp only [fromPrimary, List.flatMap_cons] at h2 ⊢
    rw [h1, h2]
    rfl

theorem toLocal_append_quiet (tr l : List Event) (h : ∀ e ∈ l, e.isPrimaryOrSend = false) :
    toLocal (tr ++ l) = toLocal tr := by
  rw [toLocal_append, toLocal_quiet l h, List.append_nil]

theorem fromPrimary_append_quiet (tr l : List Event)
    (h : ∀ e ∈ l, e.isPrimaryOrSend = false) :
    fromPrimary (tr ++ l) = fromPrimary tr := by
  rw [fromPrimary_append, fromPrimary_quiet l h, List.append_nil]

theorem noSilentShortSend_of_append (tr l : List Event) (h : noSilentShortSend (tr ++ l)) :
    noSilentShortSend tr :=
  fun e he => h e (List.mem_append.mpr (Or.inl he))

theorem Delivered.weak {s : State} (h : Delivered s) : DeliveredPrefix s := by
  intro hn
  rw [h hn]

theorem Quiet.triple {α : Type} {m : M α} (h : Quiet m) :
    Triple Delivered m (fun _ => Delivered) DeliveredPrefix := by
  intro s hs
  obtain ⟨l, ht, hq⟩ := h s
  have key : Delivered (m s).state := by
    intro hn
    rw [ht] at hn ⊢
    rw [toLocal_append_quiet _ _ hq, fromPrimary_append_quiet _ _ hq]
    exact hs (noSilentShortSend_of_append _ _ hn)
  cases hm : m s <;> simp only [hm, Res.state] at key ⊢
  · exact key
  · exact key.weak
  · exact key.weak

theorem pipe_local_quiet (env : Env) (tunnel : Nat) (connfd : Int) :
    ∀ fuel, Quiet (pipe_local env tunnel connfd fuel) := by
  intro fuel
  induction fuel with
  | zero => exact Quiet.timeout
  | succ n ih =>
    simp only [pipe_local]
    refine Quiet.qbind (recv_quiet env connfd) (fun a => ?_)
    refine Quiet.qite _ ?_ (Quiet.qpure a)
    refine Quiet.qbind (ssh_channel_write_quiet env tunnel a) (fun _ => ?_)
    exact Quiet.qbind (print_progress_quiet a) (fun _ => ih)

theorem pipe_stderr_quiet (env : Env) (tunnel : Nat) :
    ∀ fuel, Quiet (pipe_stderr env tunnel fuel) := by
  intro fuel
  induction fuel with
  | zero => exact Quiet.timeout
  | succ n ih =>
    simp only [pipe_stderr]
    refine Quiet.qbind (read_stderr_quiet env tunnel) (fun a => ?_)
    refine Quiet.qite _ ?_ (Quiet.qpure a)
    exact Quiet.qbind (reprintf_quiet a) (fun _ => ih)

theorem loop_cond_quiet (env : Env) (tunnel : Nat) : Quiet (loop_cond env tunnel) := by
  simp only [loop_cond]
  refine Quiet.qbind (pending_interrupt_quiet env) (fun intr => ?_)
  refine Quiet.qite _ (Quiet.qpure _) ?_
  refine Quiet.qbind (ssh_channel_is_open_quiet env tunnel) (fun isOpen => ?_)
  refine Quiet.qite _ (Quiet.qpure _) ?_
  exact Quiet.qbind (ssh_channel_is_eof_quiet env tunnel) (fun isEof => Quiet.qpure _)

theorem cleanup_quiet (tunnel : Nat) (connfd : Int) : Quiet (cleanup tunnel connfd) := by
  simp only [cleanup]
  refine Quiet.qbind (emit_quiet _ rfl) (fun _ => ?_)
  refine Quiet.qbind (emit_quiet _ rfl) (fun _ => ?_)
  exact Quiet.qbind (emit_quiet _ rfl) (fun _ => emit_quiet _ rfl)

theorem store_take (r : ReadResult) (s : State) :
    (r.store s).buf.take r.ret.toNat = r.data := by
  cases r with
  | got d =>
    have hlen : ((ReadResult.got d).ret).toNat = (List.take BUFSIZE d).length := by
      simp only [ReadResult.ret, Int.toNat_ofNat]
    show List.take _ (List.take BUFSIZE d ++ _) = List.take BUFSIZE d
    rw [hlen, List.take_left]
  | neg n e => simp [ReadResult.store, ReadResult.ret, ReadResult.data]

theorem data_length (r : ReadResult) (h : 0 < r.ret) : (r.data.length : Int) = r.ret := by
  cases r with
  | got d => rfl
  | neg n e => simp [ReadResult.ret] at h; omega

theorem read_stdout_pending (env : Env) (tunnel : Nat) :
    Triple Delivered (ssh_channel_read_nonblocking env tunnel false) Pending
      DeliveredPrefix := by
  intro s hs
  simp only [ssh_channel_read_nonblocking, readInto, Bool.false_eq_true, if_false]
  refine ⟨?_, ?_⟩
  · intro hpos
    rw [store_take]
    exact data_length _ hpos
  · intro hn
    rw [store_take]
    rw [store_trace] at hn ⊢
    have h0 := hs (noSilentShortSend_of_append _ _ hn)
    simp only [fromPrimary, toLocal, List.flatMap_append, List.flatMap_cons, List.flatMap_nil,
      Event.fromPrimary, Event.toLocal, List.append_nil] at h0 ⊢
    rw [h0]

theorem Pending.delivered {a : Int} {s : State} (h : Pending a s) (ha : ¬ 0 < a) :
    Delivered s := by
  intro hn
  have h0 : a.toNat = 0 := by omega
  have := h.2 hn
  rw [h0, List.take_zero, List.append_nil] at this
  exact this.symm

theorem send_afterSend (env : Env) (connfd : Int) (a : Int) (ha : 0 < a) :
    Triple (Pending a) (send env connfd a) (AfterSend a) DeliveredPrefix := by
  intro s hp
  obtain ⟨hlen, hfp⟩ := hp
  have hlen := hlen ha
  simp only [send]
  have htl : ∀ ret en, toLocal (s.trace ++ [Event.send connfd (s.buf.take a.toNat) ret en]) =
      toLocal s.trace ++ (s.buf.take a.toNat).take ret.toNat := by
    intro ret en
    simp [toLocal, Event.toLocal]
  have hfr : ∀ ret en,
      fromPrimary (s.trace ++ [Event.send connfd (s.buf.take a.toNat) ret en]) =
        fromPrimary s.trace := by
    intro ret en
    simp [fromPrimary, Event.fromPrimary]
  refine ⟨?_, ?_⟩
  · intro _ hn
    have h0 := hfp (noSilentShortSend_of_append _ _ hn)
    show toLocal (_ ++ [_]) <+: fromPrimary (_ ++ [_])
    rw [htl, hfr, h0]
    exact (List.prefix_append_right_inj _).mpr ( List.take_prefix _ _)
  · intro hno hn
    have h0 := hfp (noSilentShortSend_of_append _ _ hn)
    have hev := hn (Event.send connfd (s.buf.take a.toNat) (env.send s.nSend).ret
      ((env.send s.nSend).errno.getD s.errno)) (by simp)
    simp only [Event.isWouldBlockShortSend, hlen, Bool.and_eq_false_imp,
      decide_eq_true_eq] at hev
    have hge : ¬ (env.send s.nSend).ret < a := by
      intro hlt
      exact hno ⟨hlt, hev hlt⟩
    have hfull : (s.buf.take a.toNat).take (env.send s.nSend).ret.toNat =
        s.buf.take a.toNat := by
      apply List.take_of_length_le
      omega
    show toLocal (_ ++ [_]) = fromPrimary (_ ++ [_])
    rw [htl, hfr, h0, hfull]

theorem syserror_if_afterSend (a sent : Int) (what : String) :
    Triple (AfterSend a sent) (syserror_if (decide (sent < a)) what) (fun _ => Delivered)
      DeliveredPrefix := by
  intro s hs
  simp only [syserror_if, NONBLOCK_OK]
  by_cases hc : sent < a ∧ isWouldBlock s.errno = false
  · have : (decide (sent < a) && !isWouldBlock s.errno) = true := by
      simp [hc.1, hc.2]
    simp only [this, if_true]
    exact hs.1 hc
  · have : (decide (sent < a) && !isWouldBlock s.errno) = false := by
      by_cases h1 : sent < a
      · have h2 : isWouldBlock s.errno = true := by
          cases hw : isWouldBlock s.errno
          · exact absurd ⟨h1, hw⟩ hc
          · rfl
        simp [h2]
      · simp [h1]
    simp only [this]
    exact hs.2 hc

theorem pipe_stdout_delivered (env : Env) (tunnel : Nat) (connfd : Int) :
    ∀ fuel, Triple Delivered (pipe_stdout env tunnel connfd fuel) (fun _ => Delivered)
      DeliveredPrefix := by
  intro fuel
  induction fuel with
  | zero => exact fun s hs => hs.weak
  | succ n ih =>
    simp only [pipe_stdout]
    refine Triple.tbind (read_stdout_pending env tunnel) (fun a => ?_)
    refine Triple.tite _ (fun ha => ?_) (fun ha => ?_)
    · refine Triple.tbind (send_afterSend env connfd a ha) (fun sent => ?_)
      refine Triple.tbind (syserror_if_afterSend a sent _) (fun _ => ?_)
      exact Triple.tbind (print_progress_quiet a).triple (fun _ => ih)
    · exact Triple.tpure a (fun s hp => hp.delivered ha)

theorem loop_body_delivered (env : Env) (tunnel : Nat) (connfd : Int) (fuel : Nat) :
    Triple Delivered (loop_body env tunnel connfd fuel) (fun _ => Delivered)
      DeliveredPrefix := by
  simp only [loop_body, drain_local, after_local, drain_stdout, drain_stderr]
  refine Triple.tbind (emit_quiet (.ssh_select tunnel connfd) rfl).triple (fun _ => ?_)
  refine Triple.tbind (Q := fun _ => Delivered) ?_ (fun avail => ?_)
  · refine Triple.tbind (pipe_local_quiet env tunnel connfd fuel).triple (fun a => ?_)
    refine Triple.tbind (syserror_if_quiet _ _).triple (fun _ => ?_)
    exact Triple.tpure _ (fun _ h => h)
  · refine Triple.tite _ (fun _ => ?_) (fun _ => ?_)
    · exact Triple.tpure _ (fun _ h => h)
    · refine Triple.tbind (Q := fun _ => Delivered) ?_ (fun _ => ?_)
      · refine Triple.tbind (pipe_stdout_delivered env tunnel connfd fuel) (fun a => ?_)
        exact (syserror_if_quiet _ _).triple
      · refine Triple.tbind (Q := fun _ => Delivered) ?_ (fun _ => ?_)
        · refine Triple.tbind (pipe_stderr_quiet env tunnel fuel).triple (fun a => ?_)
          exact (syserror_if_quiet _ _).triple
        · refine Triple.tbind (print_progress_quiet 0).triple (fun _ => ?_)
          exact Triple.tpure _ (fun _ h => h)

theorem relay_delivered (env : Env) (tunnel : Nat) (connfd : Int) :
    ∀ fuel, Triple Delivered (relay env tunnel connfd fuel) (fun _ => Delivered)
      DeliveredPrefix := by
  intro fuel
  induction fuel with
  | zero => exact fun s hs => hs.weak
  | succ n ih =>
    simp only [relay]
    refine Triple.tbind (loop_cond_quiet env tunnel).triple (fun go => ?_)
    refine Triple.tite _ (fun _ => ?_) (fun _ => ?_)
    · refine Triple.tbind (loop_body_delivered env tunnel connfd n) (fun again => ?_)
      refine Triple.tite _ (fun _ => ih) (fun _ => ?_)
      exact Triple.tpure _ (fun _ h => h)
    · exact Triple.tpure _ (fun _ h => h)

theorem host_tunnel_delivered (env : Env) (tunnel : Nat) (connfd : Int) (fuel : Nat) :
    Triple Delivered (host_tunnel env tunnel connfd fuel) (fun _ => Delivered)
      DeliveredPrefix := by
  simp only [host_tunnel]
  refine Triple.tbind (print_progress_quiet _).triple (fun _ => ?_)
  refine Triple.tbind (relay_delivered env tunnel connfd fuel) (fun _ => ?_)
  exact (cleanup_quiet tunnel connfd).triple

/-! ### Claims -/


/-- C6: whatever the total was before, `print_progress(-1)` leaves the total
at `-1`, not at zero (the reset is followed by `total += add`), and a chunk
of 18 bytes forwarded next is reported as a total of 17; the whole of
`host_tunnel` in Scenario A ends with a total of 17. -/
theorem print_progress_reset_is_minus_one (s : State) (t : Int) :
    (print_progress (-1) s).state.total = -1 ∧
    ((print_progress (-1) >>= fun _ => print_progress 18) s).state.total = 17 ∧
    (host_tunnel envScenarioA 1 4 3 { State.init with total := t }).state.total = 17 := by
  refine ⟨?_, ?_, ?_⟩
  · simp [print_progress, spinner, Res.state, wrap32]
  · simp [print_progress, spinner, Res.state, wrap32, bind, M.bind]
  · simp [host_tunnel, relay, loop_cond, loop_body, drain_local, after_local, pipe_local,
      cleanup, recv, ssh_channel_write, readInto, ReadResult.ret, ReadResult.store, print_progress, spinner, spinnerChar,
      ssh_channel_is_open, ssh_channel_is_eof, pending_interrupt, syserror_if, emit,
      bind, M.bind, pure, envScenarioA, Env.quiet, requestA, BUFSIZE, Res.state, wrap32, State.init]

/-- C4: `syserror_if(err, what)` raises exactly when `err` is nonzero and
`errno` is neither `EAGAIN` nor `EWOULDBLOCK`.  Hence in the relay loop, with
a would-block `errno`:
* a `recv` that returns -1, after any number `kr` of chunks of data, raises
  nothing and the body of the loop goes on with the stdout stage;
* a `send` that returns a short count (-1 included) raises nothing and the
  stdout loop goes on with the next read;
* a read of the primary substream that returns -1, after any number `ko` of
  chunks passed on, raises nothing and the body goes on with the stderr stage;
* a read of the auxiliary substream that returns -1, after any number `ke` of
  chunks, raises nothing and the body ends asking for another round;
* whenever the body asks for another round, the relay loop evaluates its
  condition again, in the state the body ended in;
* an iteration in which all three stages end on such a -1 asks for another
  round. -/
theorem would_block_never_raises (env : Env) (tunnel : Nat) (connfd : Int)
    (kr ko ke fuel : Nat) (s t s0 s2 : State) (err : Bool) (what : String)
    (e e2 e3 : Option Int) (d : List Byte) (r : Resp) :
    ((∃ s1, syserror_if err what s = .raised what s1) ↔
        (err = true ∧ s.errno ≠ EAGAIN ∧ s.errno ≠ EWOULDBLOCK)) ∧
    ((∀ i, i < kr → 0 < (env.recv (s.nRecv + i)).ret) →
      env.recv (s.nRecv + kr) = .neg 1 e → isWouldBlock (e.getD s.errno) = true →
      kr < fuel →
      ∃ s1, drain_local env tunnel connfd fuel
            { s with trace := s.trace ++ [.ssh_select tunnel connfd] } = .ok (-1) s1 ∧
        s1.errno = e.getD s.errno ∧ s1.nRecv = s.nRecv + kr + 1 ∧
        loop_body env tunnel connfd fuel s = after_local env tunnel connfd fuel s1) ∧
    (env.read_stdout t.nStdout = .got d → 0 < d.length → d.length ≤ BUFSIZE →
      env.send t.nSend = r → isWouldBlock (r.errno.getD t.errno) = true →
      pipe_stdout env tunnel connfd (fuel + 1) t =
        (print_progress d.length >>= fun _ => pipe_stdout env tunnel connfd fuel)
          { t with nStdout := t.nStdout + 1, nSend := t.nSend + 1,
                   buf := d ++ t.buf.drop d.length, errno := r.errno.getD t.errno,
                   trace := t.trace ++ [.ssh_channel_read_nonblocking tunnel false (.got d),
                                        .send connfd d r.ret (r.errno.getD t.errno)] }) ∧
    ((∀ i, i < ko → 0 < (env.read_stdout (s.nStdout + i)).ret ∧
        ((env.read_stdout (s.nStdout + i)).ret ≤ (env.send (s.nSend + i)).ret ∨
          isWouldBlock (errnoAfterSends env s.nSend (i + 1) s.errno) = true)) →
      env.read_stdout (s.nStdout + ko) = .neg 1 e2 →
      isWouldBlock (e2.getD (errnoAfterSends env s.nSend ko s.errno)) = true →
      ko < fuel →
      ∃ s1, drain_stdout env tunnel connfd fuel s = .ok () s1 ∧
        s1.errno = e2.getD (errnoAfterSends env s.nSend ko s.errno) ∧
        s1.nStdout = s.nStdout + ko + 1 ∧ s1.nSend = s.nSend + ko ∧
        after_local env tunnel connfd fuel s =
          (drain_stderr env tunnel fuel >>= fun _ =>
            print_progress 0 >>= fun _ => (pure true : M Bool)) s1) ∧
    ((∀ i, i < ke → 0 < (env.read_stderr (s.nStderr + i)).ret) →
      env.read_stderr (s.nStderr + ke) = .neg 1 e3 →
      isWouldBlock (e3.getD s.errno) = true → ke < fuel →
      ∃ s1, drain_stderr env tunnel fuel s = .ok () s1 ∧
        s1.errno = e3.getD s.errno ∧ s1.nStderr = s.nStderr + ke + 1 ∧
        (drain_stderr env tunnel fuel >>= fun _ =>
          print_progress 0 >>= fun _ => (pure true : M Bool)) s =
            .ok true (print_progress 0 s1).state) ∧
    (loop_cond env tunnel s0 = .ok true s →
      loop_body env tunnel connfd fuel s = .ok true s2 →
      relay env tunnel connfd (fuel + 1) s0 = relay env tunnel connfd fuel s2 ∧
      relay env tunnel connfd (fuel + 1) s2 =
        (loop_cond env tunnel >>= fun go =>
          if go = true then
            loop_body env tunnel connfd fuel >>= fun again =>
              if again = true then relay env tunnel connfd fuel else pure ()
          else pure ()) s2) ∧
    ((∀ i, i < kr → 0 < (env.recv (s.nRecv + i)).ret) →
      env.recv (s.nRecv + kr) = .neg 1 e → isWouldBlock (e.getD s.errno) = true →
      (∀ i, i < ko → 0 < (env.read_stdout (s.nStdout + i)).ret ∧
        ((env.read_stdout (s.nStdout + i)).ret ≤ (env.send (s.nSend + i)).ret ∨
          isWouldBlock (errnoAfterSends env s.nSend (i + 1) (e.getD s.errno)) = true)) →
      env.read_stdout (s.nStdout + ko) = .neg 1 e2 →
      isWouldBlock (e2.getD (errnoAfterSends env s.nSend ko (e.getD s.errno))) = true →
      (∀ i, i < ke → 0 < (env.read_stderr (s.nStderr + i)).ret) →
      env.read_stderr (s.nStderr + ke) = .neg 1 e3 →
      isWouldBlock
        (e3.getD (e2.getD (errnoAfterSends env s.nSend ko (e.getD s.errno)))) = true →
      kr < fuel → ko < fuel → ke < fuel →
      ∃ s1, loop_body env tunnel connfd fuel s = .ok true s1 ∧
        (loop_cond env tunnel s0 = .ok true s →
          relay env tunnel connfd (fuel + 1) s0 = relay env tunnel connfd fuel s1)) := by
  have hbody : ∀ (a : State) (b : State),
      drain_local env tunnel connfd fuel
        { a with trace := a.trace ++ [.ssh_select tunnel connfd] } = .ok (-1) b →
      loop_body env tunnel connfd fuel a = after_local env tunnel connfd fuel b := by
    intro a b hd
    simp only [loop_body, emit, bind, M.bind, hd]
    simp
  have hafter : ∀ (a b : State), drain_stdout env tunnel connfd fuel a = .ok () b →
      after_local env tunnel connfd fuel a =
        (drain_stderr env tunnel fuel >>= fun _ =>
          print_progress 0 >>= fun _ => (pure true : M Bool)) b := by
    intro a b hd
    simp only [after_local, bind, M.bind, hd]
  have hrest : ∀ (a b : State), drain_stderr env tunnel fuel a = .ok () b →
      (drain_stderr env tunnel fuel >>= fun _ =>
        print_progress 0 >>= fun _ => (pure true : M Bool)) a =
          .ok true (print_progress 0 b).state := by
    intro a b hd
    simp only [bind, M.bind, hd]
    rw [print_progress_ok]
    rfl
  have hrelay : ∀ (b : State), loop_cond env tunnel s0 = .ok true s →
      loop_body env tunnel connfd fuel s = .ok true b →
      relay env tunnel connfd (fuel + 1) s0 = relay env tunnel connfd fuel b := by
    intro b hc hb
    simp [relay, bind, M.bind, hc, hb]
  refine ⟨?_, ?_, ?_, ?_, ?_, ?_, ?_⟩
  · simp only [syserror_if, NONBLOCK_OK, isWouldBlock]
    cases err
    · simp
    · by_cases hb : s.errno = EAGAIN ∨ s.errno = EWOULDBLOCK
      · have hn : ¬(¬s.errno = EAGAIN ∧ ¬s.errno = EWOULDBLOCK) := by tauto
        simp [hn]
      · have hy : ¬s.errno = EAGAIN ∧ ¬s.errno = EWOULDBLOCK := by tauto
        simp [hy]
  · intro hk hlast hwb hf
    obtain ⟨s1, hd, h1, h2, _⟩ :=
      drain_local_would_block env tunnel connfd kr fuel
        { s with trace := s.trace ++ [.ssh_select tunnel connfd] } e hk hlast hwb hf
    exact ⟨s1, hd, h1, h2, hbody s s1 hd⟩
  · intro h hpos hle hs hw
    subst hs
    have hmin : min BUFSIZE d.length = d.length := Nat.min_eq_right hle
    have htake : List.take BUFSIZE d = d := List.take_of_length_le hle
    simp [pipe_stdout, ssh_channel_read_nonblocking, send, readInto, ReadResult.ret,
      ReadResult.store, syserror_if, NONBLOCK_OK, bind, M.bind, pure, h, hw, hmin, htake,
      hpos]
  · intro hk hlast hwb hf
    obtain ⟨s1, hd, h1, h2, h3, _⟩ :=
      drain_stdout_would_block env tunnel connfd ko fuel s e2 hk hlast hwb hf
    exact ⟨s1, hd, h1, h2, h3, hafter s s1 hd⟩
  · intro hk hlast hwb hf
    obtain ⟨s1, hd, h1, h2⟩ :=
      drain_stderr_would_block env tunnel ke fuel s e3 hk hlast hwb hf
    exact ⟨s1, hd, h1, h2, hrest s s1 hd⟩
  · intro hc hb
    refine ⟨hrelay s2 hc hb, ?_⟩
    simp only [relay]
  · intro hkr hr hwr hko ho hwo hke he hwe hfr hfo hfe
    obtain ⟨a, hda, ha1, _, ha3, ha4, ha5⟩ :=
      drain_local_would_block env tunnel connfd kr fuel
        { s with trace := s.trace ++ [.ssh_select tunnel connfd] } e hkr hr hwr hfr
    have ha1 : a.errno = e.getD s.errno := ha1
    have ha3 : a.nStdout = s.nStdout := ha3
    have ha4 : a.nStderr = s.nStderr := ha4
    have ha5 : a.nSend = s.nSend := ha5
    obtain ⟨b, hdb, hb1, _, _, hb4⟩ :=
      drain_stdout_would_block env tunnel connfd ko fuel a e2
        (by rw [ha3, ha5, ha1]; exact hko) (by rw [ha3]; exact ho)
        (by rw [ha5, ha1]; exact hwo) hfo
    rw [ha5, ha1] at hb1
    obtain ⟨c, hdc, _, _⟩ :=
      drain_stderr_would_block env tunnel ke fuel b e3
        (by rw [hb4, ha4]; exact hke) (by rw [hb4, ha4]; exact he)
        (by rw [hb1]; exact hwe) hfe
    have hrun : loop_body env tunnel connfd fuel s = .ok true (print_progress 0 c).state := by
      rw [hbody s a hda, hafter a b hdb, hrest b c hdc]
    exact ⟨(print_progress 0 c).state, hrun, fun hc => hrelay _ hc hrun⟩

/-- Witness of C4 on a busy link: every stage of the first iteration moves one
chunk and then gets -1 with a would-block `errno`, and the `send` of the chunk
fails with `EAGAIN`; the body asks for another round, the relay loop goes
round again, and the failed `send` raises nothing. -/
theorem would_block_never_raises_witness :
    (∃ s1, loop_body envBusyWouldBlock 1 4 2 stateIterBusy = .ok true s1 ∧
      relay envBusyWouldBlock 1 4 3 State.init = relay envBusyWouldBlock 1 4 2 s1) ∧
    pipe_stdout envBusyWouldBlock 1 4 3 State.init =
      (print_progress 3 >>= fun _ => pipe_stdout envBusyWouldBlock 1 4 2)
        { State.init with
            nStdout := 1, nSend := 1, buf := [7, 8, 9], errno := EAGAIN,
            trace := [.ssh_channel_read_nonblocking 1 false (.got [7, 8, 9]),
                      .send 4 [7, 8, 9] (-1) EAGAIN] } := by
  have h := would_block_never_raises envBusyWouldBlock 1 4 1 1 1 2 stateIterBusy State.init
    State.init State.init true "send() to user" (some EAGAIN) (some EAGAIN)
    (some EWOULDBLOCK) [7, 8, 9] ⟨-1, some EAGAIN⟩
  have hcond : loop_cond envBusyWouldBlock 1 State.init = .ok true stateIterBusy := by
    simp [stateIterBusy, loop_cond, pending_interrupt, ssh_channel_is_open,
      ssh_channel_is_eof, bind, M.bind, pure, envBusyWouldBlock, Env.quiet, Res.state]
  constructor
  · obtain ⟨s1, hb, hr⟩ := h.2.2.2.2.2.2 (by decide) (by decide) (by decide) (by decide)
      (by decide) (by decide) (by decide) (by decide) (by decide) (by decide) (by decide)
      (by decide)
    exact ⟨s1, hb, hr hcond⟩
  · exact (would_block_never_raises envBusyWouldBlock 1 4 1 1 1 2 stateIterBusy State.init
      State.init State.init true "send() to user" (some EAGAIN) (some EAGAIN)
      (some EWOULDBLOCK) [7, 8, 9] ⟨-1, some EAGAIN⟩).2.2.1 rfl (by decide) (by decide) rfl
      (by decide)

/-- C8 as stated fails: with the listener reported readable in the first
iteration and an interrupt pending, `wait_for_fd` returns 1 and has not asked
for the interrupt at all. -/
theorem wait_for_fd_readable_skips_interrupt_check :
    envReadableInterrupted.pending_interrupt 0 = true ∧
    wait_for_fd envReadableInterrupted 3 9000 1 State.init =
      .ok 1 { State.init with
          x := 1, nSelect := 1, nInterrupt := 0,
          trace := [.rprintf_waiting '/' 9000, .select 3 1] } := by
  constructor
  · rfl
  · simp [wait_for_fd, spinner, spinnerChar, emit, select, syserror_if, bind, M.bind, pure,
      envReadableInterrupted, Env.quiet, State.init]

/-- C8, amended: in an iteration of `wait_for_fd` whose `select` returns 0 the
interrupt is asked for after the `select`; if it is pending the function
returns 0 at once, otherwise the next iteration starts. -/
theorem wait_for_fd_checks_interrupt_after_timeout (env : Env) (fd port : Int) (fuel : Nat)
    (s : State) (hsel : (env.select s.nSelect).ret = 0) :
    wait_for_fd env fd port (fuel + 1) s =
      (if env.pending_interrupt s.nInterrupt then (pure 0 : M Int)
       else wait_for_fd env fd port fuel)
        { s with x := (s.x + 1) % 4, nSelect := s.nSelect + 1,
                 nInterrupt := s.nInterrupt + 1,
                 errno := (env.select s.nSelect).errno.getD s.errno,
                 trace := s.trace ++
                   [.rprintf_waiting (spinnerChar ((s.x + 1) % 4)) port,
                    .select fd 0,
                    .pending_interrupt (env.pending_interrupt s.nInterrupt)] } := by
  cases hi : env.pending_interrupt s.nInterrupt <;>
    simp [wait_for_fd, spinner, emit, select, syserror_if, pending_interrupt, bind, M.bind,
      pure, hsel, hi]

/-- Witness of the amended C8: the first `select` times out with an interrupt
pending, and `wait_for_fd` returns 0 having asked for it. -/
theorem wait_for_fd_checks_interrupt_after_timeout_witness :
    wait_for_fd envTimeoutThenReadable 3 9000 1 State.init =
      .ok 0 { State.init with
          x := 1, nSelect := 1, nInterrupt := 1,
          trace := [.rprintf_waiting '/' 9000, .select 3 0,
            .pending_interrupt true] } :=
  wait_for_fd_checks_interrupt_after_timeout envTimeoutThenReadable 3 9000 0 State.init rfl

/-- C10 fails on the code: a `select` that returns -1 with `errno = EAGAIN`
raises nothing, `wait_for_fd` returns -1, and `open_tunnel` goes on to
`accept` on a listener that was never reported readable. -/
theorem wait_for_fd_nonzero_on_would_block_failure :
    wait_for_fd envSelectEagain 3 9000 1 State.init =
      .ok (-1) { State.init with
          x := 1, nSelect := 1, errno := EAGAIN,
          trace := [.rprintf_waiting '/' 9000, .select 3 (-1)] } ∧
    (open_tunnel envSelectEagain 9000 2 State.init).state.trace.take 6 =
      [.socket 3, .bind 3 0, .listen 3 0, .rprintf_waiting '/' 9000, .select 3 (-1),
       .accept 3 4] := by
  constructor
  · simp [wait_for_fd, spinner, spinnerChar, emit, select, syserror_if, NONBLOCK_OK, isWouldBlock, bind,
      M.bind, pure, envSelectEagain, Env.quiet, State.init, EAGAIN, EWOULDBLOCK]
  · simp [open_tunnel, open_port, host_tunnel, relay, loop_cond, loop_body, drain_local,
      pipe_local, cleanup, recv, readInto, ReadResult.ret, ReadResult.store, print_progress, spinnerChar, setErrno, bail_if,
      ssh_channel_is_open, ssh_channel_is_eof, NONBLOCK_OK, isWouldBlock, EAGAIN,
      EWOULDBLOCK, wait_for_fd, bind, M.bind, spinner, emit, select, syserror_if, pure,
      envSelectEagain, Env.quiet, State.init, Res.state, pending_interrupt]

/-- C5 fails on the code in one point: in Scenario B (no client, interrupt
seen at the third poll) `open_tunnel` returns without an error, without an
`accept` and without a channel, but `close(listenfd)` is never called: the
trace ends with the third interrupt check. -/
theorem open_tunnel_cancelled_leaves_listener_open :
    open_tunnel envScenarioB 9000 3 State.init =
      .ok () { State.init with
          x := 3, nSelect := 3, nInterrupt := 3,
          trace := [.socket 3, .bind 3 0, .listen 3 0,
            .rprintf_waiting '/' 9000, .select 3 0, .pending_interrupt false,
            .rprintf_waiting '-' 9000, .select 3 0, .pending_interrupt false,
            .rprintf_waiting (Char.ofNat 92) 9000, .select 3 0,
            .pending_interrupt true] } ∧
    Event.close 3 ∉ (open_tunnel envScenarioB 9000 3 State.init).state.trace := by
  have h : open_tunnel envScenarioB 9000 3 State.init =
      .ok () { State.init with
          x := 3, nSelect := 3, nInterrupt := 3,
          trace := [.socket 3, .bind 3 0, .listen 3 0,
            .rprintf_waiting '/' 9000, .select 3 0, .pending_interrupt false,
            .rprintf_waiting '-' 9000, .select 3 0, .pending_interrupt false,
            .rprintf_waiting (Char.ofNat 92) 9000, .select 3 0,
            .pending_interrupt true] } := by
    simp [open_tunnel, open_port, setErrno, wait_for_fd, bind, M.bind, spinner, spinnerChar, emit, select,
      syserror_if, pure, envScenarioB, Env.quiet, State.init, pending_interrupt]
  refine ⟨h, ?_⟩
  rw [h]
  simp [Res.state, State.init]

/-- C9: in an iteration of the relay loop in which, after any number `k` of
chunks of data, a `recv` returns zero, the body of the loop ends with the
`break`: nothing is raised, no substream of the channel is read and nothing is
sent to the local connection in that iteration, and the relay loop is left at
once for the four cleanup calls, after which `host_tunnel` returns. -/
theorem peer_eof_wins (env : Env) (tunnel : Nat) (connfd : Int) (k fuel : Nat) (s : State)
    (hk : ∀ i, i < k → 0 < (env.recv (s.nRecv + i)).ret)
    (hz : (env.recv (s.nRecv + k)).ret = 0) (hf : k < fuel) :
    ∃ s1, loop_body env tunnel connfd fuel s = .ok false s1 ∧
      s1.nStdout = s.nStdout ∧ s1.nStderr = s.nStderr ∧ s1.nSend = s.nSend ∧
      (∃ l, s1.trace = s.trace ++ l ∧ ∀ e ∈ l, e.isChannelReadOrSend = false) ∧
      ∀ s0, loop_cond env tunnel s0 = .ok true s →
        (relay env tunnel connfd (fuel + 1) >>= fun _ => cleanup tunnel connfd) s0 =
          .ok () { s1 with trace := s1.trace ++
            [.close connfd, .ssh_channel_send_eof tunnel, .ssh_channel_close tunnel,
             .ssh_channel_free tunnel] } ∧
        ∀ u, print_progress (-1) u = .ok () s0 →
          host_tunnel env tunnel connfd (fuel + 1) u =
            .ok () { s1 with trace := s1.trace ++
              [.close connfd, .ssh_channel_send_eof tunnel, .ssh_channel_close tunnel,
               .ssh_channel_free tunnel] } := by
  obtain ⟨s1, hrun, _, h2, h3, h4, _, l, hl, hp⟩ :=
    pipe_local_chunks env tunnel connfd k fuel
      { s with trace := s.trace ++ [.ssh_select tunnel connfd] }
      hk (by simp only [hz]; decide) hf
  have hbody : loop_body env tunnel connfd fuel s = .ok false s1 := by
    simp only [loop_body, drain_local, emit, bind, M.bind, hrun]
    simp [syserror_if, hz, pure]
  refine ⟨s1, hbody, h2, h3, h4, ⟨.ssh_select tunnel connfd :: l, ?_, ?_⟩, ?_⟩
  · simp [hl]
  · intro e hmem
    rcases List.mem_cons.mp hmem with hm | hm
    · subst hm; rfl
    · exact hp e hm
  · intro s0 hc
    have hrelay : (relay env tunnel connfd (fuel + 1) >>= fun _ => cleanup tunnel connfd) s0 =
        .ok () { s1 with trace := s1.trace ++
          [.close connfd, .ssh_channel_send_eof tunnel, .ssh_channel_close tunnel,
           .ssh_channel_free tunnel] } := by
      simp [relay, cleanup, emit, bind, M.bind, pure, hc, hbody]
    refine ⟨hrelay, ?_⟩
    intro u hu
    rw [← hrelay]
    simp only [host_tunnel, bind, M.bind, hu]

/-- Witness of C9: two chunks arrive, then the peer closes; data is pending
on both substreams of the channel, and none of it is read. -/
theorem peer_eof_wins_witness :
    ∃ s1, loop_body envPeerCloses 1 4 3 stateIterPeerCloses = .ok false s1 ∧
      s1.nStdout = 0 ∧ s1.nStderr = 0 ∧ s1.nSend = 0 :=
  (peer_eof_wins envPeerCloses 1 4 2 3 stateIterPeerCloses (by decide) (by decide)
    (by decide)).imp fun _ h => ⟨h.1, h.2.1, h.2.2.1, h.2.2.2.1⟩

/-- C1 fails on the code: a fatal error leaves the C code at once.  When the
first `recv` fails with `ECONNRESET`, `host_tunnel` raises and the trace ends
with that `recv`: no `close(connfd)`, no end-of-stream, no close and no release
of the channel.  When the remote side refuses the channel, `open_tunnel` raises
with the connection accepted and the channel created, and closes or releases
neither. -/
theorem fatal_error_skips_cleanup :
    host_tunnel envRecvFails 1 4 2 State.init =
      .raised "recv() from user" { State.init with
          errno := ECONNRESET, x := 1, total := -1, nInterrupt := 1, nIsOpen := 1,
          nIsEof := 1, nRecv := 1,
          trace := [.rprintf_progress '/' (-1), .pending_interrupt false,
            .ssh_channel_is_open 1 true, .ssh_channel_is_eof 1 false, .ssh_select 1 4,
            .recv 4 (.neg 1 (some ECONNRESET))] } ∧
    open_tunnel envOpenRefused 9000 2 State.init =
      .raised "channel_open_forward" { State.init with
          x := 1, nSelect := 1,
          trace := [.socket 3, .bind 3 0, .listen 3 0, .rprintf_waiting '/' 9000,
            .select 3 1, .accept 3 4, .rprintf_msg "client connnected!\n",
            .set_nonblocking 4, .ssh_channel_new 1, .ssh_channel_open_forward 1 (-1)] } := by
  constructor
  · simp [host_tunnel, relay, loop_cond, loop_body, drain_local, pipe_local, recv, readInto,
      ReadResult.ret, ReadResult.store, print_progress, spinner, spinnerChar,
      ssh_channel_is_open, ssh_channel_is_eof, pending_interrupt, syserror_if, NONBLOCK_OK,
      isWouldBlock, emit, bind, M.bind, pure, envRecvFails, Env.quiet, State.init, wrap32,
      EAGAIN, EWOULDBLOCK, ECONNRESET]
  · simp [open_tunnel, open_port, setErrno, wait_for_fd, select, spinner, spinnerChar,
      syserror_if, bail_if, emit, bind, M.bind, pure, envOpenRefused, Env.quiet, State.init]

/-- C2 fails on the code: the value returned by `ssh_channel_write` is dropped.
The local peer sends `1 2 3 4 5`, then `6`, then closes.  When the first
`ssh_channel_write` returns -1, `host_tunnel` goes on, counts all six bytes as
tunneled and returns normally, and the channel has accepted `6` only; when it
returns 2, the channel has accepted `1 2 6`. -/
theorem ignored_channel_write_result_drops_bytes :
    ((∃ s1, host_tunnel envWriteFails 1 4 4 State.init = .ok () s1) ∧
      fromLocal (host_tunnel envWriteFails 1 4 4 State.init).state.trace =
        [1, 2, 3, 4, 5, 6] ∧
      toChannel (host_tunnel envWriteFails 1 4 4 State.init).state.trace = [6] ∧
      (host_tunnel envWriteFails 1 4 4 State.init).state.total = 5) ∧
    ((∃ s1, host_tunnel envShortWrite 1 4 4 State.init = .ok () s1) ∧
      fromLocal (host_tunnel envShortWrite 1 4 4 State.init).state.trace =
        [1, 2, 3, 4, 5, 6] ∧
      toChannel (host_tunnel envShortWrite 1 4 4 State.init).state.trace = [1, 2, 6]) := by
  have h : (host_tunnel envWriteFails 1 4 4 State.init).state.trace =
      [.rprintf_progress '/' (-1), .pending_interrupt false, .ssh_channel_is_open 1 true,
       .ssh_channel_is_eof 1 false, .ssh_select 1 4, .recv 4 (.got [1, 2, 3, 4, 5]),
       .ssh_channel_write 1 [1, 2, 3, 4, 5] (-1), .rprintf_progress '-' 4,
       .recv 4 (.got [6]), .ssh_channel_write 1 [6] 1,
       .rprintf_progress (Char.ofNat 92) 5, .recv 4 (.neg 0 none),
       .close 4, .ssh_channel_send_eof 1, .ssh_channel_close 1, .ssh_channel_free 1] := by
    simp [host_tunnel, relay, loop_cond, loop_body, drain_local, pipe_local, cleanup, recv,
      ssh_channel_write, readInto, ReadResult.ret, ReadResult.store, print_progress, spinner,
      spinnerChar, ssh_channel_is_open, ssh_channel_is_eof, pending_interrupt, syserror_if,
      emit, bind, M.bind, pure, envWriteFails, Env.quiet, State.init, BUFSIZE, Res.state,
      wrap32]
  have h2 : (host_tunnel envShortWrite 1 4 4 State.init).state.trace =
      [.rprintf_progress '/' (-1), .pending_interrupt false, .ssh_channel_is_open 1 true,
       .ssh_channel_is_eof 1 false, .ssh_select 1 4, .recv 4 (.got [1, 2, 3, 4, 5]),
       .ssh_channel_write 1 [1, 2, 3, 4, 5] 2, .rprintf_progress '-' 4,
       .recv 4 (.got [6]), .ssh_channel_write 1 [6] 1,
       .rprintf_progress (Char.ofNat 92) 5, .recv 4 (.neg 0 none),
       .close 4, .ssh_channel_send_eof 1, .ssh_channel_close 1, .ssh_channel_free 1] := by
    simp [host_tunnel, relay, loop_cond, loop_body, drain_local, pipe_local, cleanup, recv,
      ssh_channel_write, readInto, ReadResult.ret, ReadResult.store, print_progress, spinner,
      spinnerChar, ssh_channel_is_open, ssh_channel_is_eof, pending_interrupt, syserror_if,
      emit, bind, M.bind, pure, envShortWrite, Env.quiet, State.init, BUFSIZE, Res.state,
      wrap32]
  refine ⟨⟨?_, ?_, ?_, ?_⟩, ?_, ?_, ?_⟩
  · simp [host_tunnel, relay, loop_cond, loop_body, drain_local, pipe_local, cleanup, recv,
      ssh_channel_write, readInto, ReadResult.ret, ReadResult.store, print_progress, spinner,
      spinnerChar, ssh_channel_is_open, ssh_channel_is_eof, pending_interrupt, syserror_if,
      emit, bind, M.bind, pure, envWriteFails, Env.quiet, State.init, BUFSIZE, wrap32]
  · rw [h]; simp [fromLocal, Event.fromLocal, ReadResult.data, BUFSIZE]
  · rw [h]; simp [toChannel, Event.toChannel]
  · simp [host_tunnel, relay, loop_cond, loop_body, drain_local, pipe_local, cleanup, recv,
      ssh_channel_write, readInto, ReadResult.ret, ReadResult.store, print_progress, spinner,
      spinnerChar, ssh_channel_is_open, ssh_channel_is_eof, pending_interrupt, syserror_if,
      emit, bind, M.bind, pure, envWriteFails, Env.quiet, State.init, BUFSIZE, Res.state,
      wrap32]
  · simp [host_tunnel, relay, loop_cond, loop_body, drain_local, pipe_local, cleanup, recv,
      ssh_channel_write, readInto, ReadResult.ret, ReadResult.store, print_progress, spinner,
      spinnerChar, ssh_channel_is_open, ssh_channel_is_eof, pending_interrupt, syserror_if,
      emit, bind, M.bind, pure, envShortWrite, Env.quiet, State.init, BUFSIZE, wrap32]
  · rw [h2]; simp [fromLocal, Event.fromLocal, ReadResult.data, BUFSIZE]
  · rw [h2]; simp [toChannel, Event.toChannel]

/-- C3 as stated fails: the channel delivers `1 2 3`, `send` returns -1 with
`errno = EAGAIN`, nothing is raised; the next chunk `4 5` is sent whole and
`host_tunnel` returns normally.  The local connection got `4 5`, which is not
a prefix of `1 2 3 4 5`. -/
theorem would_block_short_send_is_silent :
    (∃ s1, host_tunnel envSendEagain 1 4 4 State.init = .ok () s1) ∧
    fromPrimary (host_tunnel envSendEagain 1 4 4 State.init).state.trace = [1, 2, 3, 4, 5] ∧
    toLocal (host_tunnel envSendEagain 1 4 4 State.init).state.trace = [4, 5] ∧
    ¬ toLocal (host_tunnel envSendEagain 1 4 4 State.init).state.trace <+:
        fromPrimary (host_tunnel envSendEagain 1 4 4 State.init).state.trace := by
  have h : (host_tunnel envSendEagain 1 4 4 State.init).state.trace =
      [.rprintf_progress '/' (-1), .pending_interrupt false, .ssh_channel_is_open 1 true,
       .ssh_channel_is_eof 1 false, .ssh_select 1 4, .recv 4 (.neg 1 (some EAGAIN)),
       .ssh_channel_read_nonblocking 1 false (.got [1, 2, 3]),
       .send 4 [1, 2, 3] (-1) EAGAIN, .rprintf_progress '-' 2,
       .ssh_channel_read_nonblocking 1 false (.got [4, 5]),
       .send 4 [4, 5] 2 EAGAIN, .rprintf_progress (Char.ofNat 92) 4,
       .ssh_channel_read_nonblocking 1 false (.neg 0 none),
       .ssh_channel_read_nonblocking 1 true (.neg 0 none),
       .rprintf_progress '|' 4, .pending_interrupt true,
       .close 4, .ssh_channel_send_eof 1, .ssh_channel_close 1, .ssh_channel_free 1] := by
    simp [host_tunnel, relay, loop_cond, loop_body, after_local, drain_local, drain_stdout,
      drain_stderr, pipe_local, pipe_stdout, pipe_stderr, cleanup, recv, send,
      ssh_channel_read_nonblocking, readInto, ReadResult.ret, ReadResult.store,
      print_progress, spinner, spinnerChar, ssh_channel_is_open, ssh_channel_is_eof,
      pending_interrupt, syserror_if, NONBLOCK_OK, isWouldBlock, emit, bind, M.bind, pure,
      envSendEagain, Env.quiet, State.init, BUFSIZE, Res.state, wrap32, EAGAIN, EWOULDBLOCK]
  refine ⟨?_, ?_, ?_, ?_⟩
  · simp [host_tunnel, relay, loop_cond, loop_body, after_local, drain_local, drain_stdout,
      drain_stderr, pipe_local, pipe_stdout, pipe_stderr, cleanup, recv, send,
      ssh_channel_read_nonblocking, readInto, ReadResult.ret, ReadResult.store,
      print_progress, spinner, spinnerChar, ssh_channel_is_open, ssh_channel_is_eof,
      pending_interrupt, syserror_if, NONBLOCK_OK, isWouldBlock, emit, bind, M.bind, pure,
      envSendEagain, Env.quiet, State.init, BUFSIZE, Res.state, wrap32, EAGAIN, EWOULDBLOCK]
  · rw [h]; simp [fromPrimary, Event.fromPrimary, ReadResult.data, BUFSIZE]
  · rw [h]; simp [toLocal, Event.toLocal]
  · rw [h]; simp [toLocal, Event.toLocal, fromPrimary, Event.fromPrimary, ReadResult.data, BUFSIZE]

/-- C3, amended: for a chunk of `n > 0` bytes read from the primary substream,
a `send` that returns fewer than `n` (-1 included) while `errno` is not a
would-block value raises "send() to user", and a `send` that takes all `n`
bytes lets the loop go on with the chunk delivered whole.  Hence a run of
`host_tunnel` in which no `send` came up short with a would-block `errno`
delivers to the local connection an in-order prefix of the bytes read from
the primary substream, and all of them when it returns. -/
theorem short_send_raises_unless_would_block (env : Env) (tunnel : Nat) (connfd : Int)
    (fuel : Nat) (s u : State) (d : List Byte) (r : Resp) :
    (env.read_stdout s.nStdout = .got d → 0 < d.length → d.length ≤ BUFSIZE →
      env.send s.nSend = r →
      (r.ret < d.length → isWouldBlock (r.errno.getD s.errno) = false) →
      pipe_stdout env tunnel connfd (fuel + 1) s =
        (if r.ret < d.length then (fun s1 => Res.raised "send() to user" s1 : M Int)
         else print_progress d.length >>= fun _ => pipe_stdout env tunnel connfd fuel)
          { s with nStdout := s.nStdout + 1, nSend := s.nSend + 1,
                   buf := d ++ s.buf.drop d.length, errno := r.errno.getD s.errno,
                   trace := s.trace ++ [.ssh_channel_read_nonblocking tunnel false (.got d),
                                        .send connfd d r.ret (r.errno.getD s.errno)] }) ∧
    (toLocal u.trace = fromPrimary u.trace →
      noSilentShortSend (host_tunnel env tunnel connfd fuel u).state.trace →
      toLocal (host_tunnel env tunnel connfd fuel u).state.trace <+:
        fromPrimary (host_tunnel env tunnel connfd fuel u).state.trace ∧
      ∀ s1, host_tunnel env tunnel connfd fuel u = .ok () s1 →
        toLocal s1.trace = fromPrimary s1.trace) := by
  constructor
  · intro h hpos hle hs hw
    subst hs
    have hmin : min BUFSIZE d.length = d.length := Nat.min_eq_right hle
    have htake : List.take BUFSIZE d = d := List.take_of_length_le hle
    by_cases hlt : (env.send s.nSend).ret < d.length
    · have hw := hw hlt
      simp [pipe_stdout, ssh_channel_read_nonblocking, send, readInto, ReadResult.ret,
        ReadResult.store, syserror_if, NONBLOCK_OK, bind, M.bind, h, hw, hmin, htake,
        hpos, hlt]
    · simp [pipe_stdout, ssh_channel_read_nonblocking, send, readInto, ReadResult.ret,
        ReadResult.store, syserror_if, NONBLOCK_OK, bind, M.bind, h, hmin, htake,
        hpos, hlt]
  · intro h0 hn
    have ht := host_tunnel_delivered env tunnel connfd fuel u (fun _ => h0)
    constructor
    · cases hr : host_tunnel env tunnel connfd fuel u <;> simp only [hr] at ht hn ⊢
      · exact (Delivered.weak ht) hn
      · exact ht hn
      · exact ht hn
    · intro s1 hr
      rw [hr] at ht hn
      exact ht hn

/-- Witness of the amended C3: the channel delivers `1 2 3`, `send` takes one
byte and fails with `ECONNRESET`; "send() to user" is raised, and the local
connection got `1`, a prefix of `1 2 3`. -/
theorem short_send_raises_unless_would_block_witness :
    pipe_stdout envSendReset 1 4 1 State.init =
      .raised "send() to user" { State.init with
          nStdout := 1, nSend := 1, buf := [1, 2, 3], errno := ECONNRESET,
          trace := [.ssh_channel_read_nonblocking 1 false (.got [1, 2, 3]),
                    .send 4 [1, 2, 3] 1 ECONNRESET] } ∧
    toLocal (host_tunnel envSendReset 1 4 3 State.init).state.trace <+:
      fromPrimary (host_tunnel envSendReset 1 4 3 State.init).state.trace := by
  have hrun : (host_tunnel envSendReset 1 4 3 State.init).state.trace =
      [.rprintf_progress '/' (-1), .pending_interrupt false, .ssh_channel_is_open 1 true,
       .ssh_channel_is_eof 1 false, .ssh_select 1 4, .recv 4 (.neg 1 (some EAGAIN)),
       .ssh_channel_read_nonblocking 1 false (.got [1, 2, 3]),
       .send 4 [1, 2, 3] 1 ECONNRESET] := by
    simp [host_tunnel, relay, loop_cond, loop_body, after_local, drain_local, drain_stdout,
      pipe_local, pipe_stdout, recv, send, ssh_channel_read_nonblocking, readInto,
      ReadResult.ret, ReadResult.store, print_progress, spinner, spinnerChar,
      ssh_channel_is_open, ssh_channel_is_eof, pending_interrupt, syserror_if, NONBLOCK_OK,
      isWouldBlock, emit, bind, M.bind, pure, envSendReset, Env.quiet, State.init, BUFSIZE,
      Res.state, wrap32, EAGAIN, EWOULDBLOCK, ECONNRESET]
  have h := short_send_raises_unless_would_block envSendReset 1 4 3 State.init State.init
    [1, 2, 3] ⟨1, some ECONNRESET⟩
  constructor
  · have h1 := (short_send_raises_unless_would_block envSendReset 1 4 0 State.init State.init
      [1, 2, 3] ⟨1, some ECONNRESET⟩).1 rfl (by decide) (by decide) rfl (fun _ => by decide)
    simpa using h1
  · refine (h.2 rfl ?_).1
    rw [hrun]
    intro e he
    simp at he
    rcases he with rfl | rfl | rfl | rfl | rfl | rfl | rfl | rfl <;>
      simp [Event.isWouldBlockShortSend, isWouldBlock, ECONNRESET, EAGAIN, EWOULDBLOCK]

/-- C7: two runs of `host_tunnel` from the same state that differ only in the
content of the chunks read from the channel's auxiliary (stderr) substream
(same lengths, same results otherwise) end in the same way, make the same
`send` and `ssh_channel_write` calls with the same bytes offered and the same
results, and so put the same bytes on the local connection and on the channel's
write stream. -/
theorem aux_stream_isolation (env : Env) (f g : Nat → ReadResult)
    (hfg : ∀ i, sameShape (f i) (g i) = true) (tunnel : Nat) (connfd : Int) (fuel : Nat)
    (s : State) :
    ResRel (fun _ => Sim) (host_tunnel (env.withStderr f) tunnel connfd fuel s)
      (host_tunnel (env.withStderr g) tunnel connfd fuel s) ∧
    (host_tunnel (env.withStderr f) tunnel connfd fuel s).state.trace.filter Event.isForward =
      (host_tunnel (env.withStderr g) tunnel connfd fuel s).state.trace.filter
        Event.isForward ∧
    toLocal (host_tunnel (env.withStderr f) tunnel connfd fuel s).state.trace =
      toLocal (host_tunnel (env.withStderr g) tunnel connfd fuel s).state.trace ∧
    toChannel (host_tunnel (env.withStderr f) tunnel connfd fuel s).state.trace =
      toChannel (host_tunnel (env.withStderr g) tunnel connfd fuel s).state.trace := by
  have hrel := host_tunnel_sim env f g hfg tunnel connfd fuel s s (Sim.refl s)
  have hfil : (host_tunnel (env.withStderr f) tunnel connfd fuel s).state.trace.filter
      Event.isForward =
      (host_tunnel (env.withStderr g) tunnel connfd fuel s).state.trace.filter
        Event.isForward := by
    rw [← filter_isForward_eraseAux, ← filter_isForward_eraseAux
      (host_tunnel (env.withStderr g) tunnel connfd fuel s).state.trace,
      (ResRel.sim_state hrel).trace]
  refine ⟨hrel, hfil, ?_, ?_⟩
  · rw [← toLocal_filter_isForward, hfil, toLocal_filter_isForward]
  · rw [← toChannel_filter_isForward, hfil, toChannel_filter_isForward]


/-- Witness of C7: the auxiliary substream brings `A B C` in one run and
`X Y Z` in the other; the console output differs, the bytes sent to the local
connection are `1 2` in both runs and nothing is written to the channel. -/
theorem aux_stream_isolation_witness :
    (Event.reprintf [65, 66, 67] ∈
        (host_tunnel (envAux.withStderr auxABC) 1 4 4 State.init).state.trace ∧
      Event.reprintf [88, 89, 90] ∈
        (host_tunnel (envAux.withStderr auxXYZ) 1 4 4 State.init).state.trace) ∧
    toLocal (host_tunnel (envAux.withStderr auxABC) 1 4 4 State.init).state.trace =
      toLocal (host_tunnel (envAux.withStderr auxXYZ) 1 4 4 State.init).state.trace ∧
    toChannel (host_tunnel (envAux.withStderr auxABC) 1 4 4 State.init).state.trace =
      toChannel (host_tunnel (envAux.withStderr auxXYZ) 1 4 4 State.init).state.trace := by
  have hfg : ∀ i, sameShape (auxABC i) (auxXYZ i) = true := by
    intro i
    by_cases hi : i = 0 <;> simp [auxABC, auxXYZ, sameShape, hi]
  refine ⟨⟨?_, ?_⟩, (aux_stream_isolation envAux auxABC auxXYZ hfg 1 4 4 State.init).2.2⟩
  · simp [host_tunnel, relay, loop_cond, loop_body, after_local, drain_local, drain_stdout,
      drain_stderr, pipe_local, pipe_stdout, pipe_stderr, cleanup, recv, send, reprintf,
      ssh_channel_read_nonblocking, readInto, ReadResult.ret, ReadResult.store,
      print_progress, spinner, spinnerChar, ssh_channel_is_open, ssh_channel_is_eof,
      pending_interrupt, syserror_if, NONBLOCK_OK, isWouldBlock, emit, bind, M.bind, pure,
      envAux, auxABC, Env.withStderr, Env.quiet, State.init, BUFSIZE, Res.state, wrap32,
      EAGAIN, EWOULDBLOCK]
  · simp [host_tunnel, relay, loop_cond, loop_body, after_local, drain_local, drain_stdout,
      drain_stderr, pipe_local, pipe_stdout, pipe_stderr, cleanup, recv, send, reprintf,
      ssh_channel_read_nonblocking, readInto, ReadResult.ret, ReadResult.store,
      print_progress, spinner, spinnerChar, ssh_channel_is_open, ssh_channel_is_eof,
      pending_interrupt, syserror_if, NONBLOCK_OK, isWouldBlock, emit, bind, M.bind, pure,
      envAux, auxXYZ, Env.withStderr, Env.quiet, State.init, BUFSIZE, Res.state, wrap32,
      EAGAIN, EWOULDBLOCK]


end Tunnel
